import Mathlib

/-!
# The Thanos custom-resource schema

A shallow embedding of `pkg/sdk/api/v1alpha1/thanos_types.go`: the constants, the default
Query value, the record types with their JSON struct tags, and the registration done by `init`.

The Go records become Lean structures with the same field names.  The wire format is the one
`encoding/json` derives from the struct tags: a record is a JSON object whose members are the
tagged fields in declaration order, a field tagged `omitempty` is left out when its value is
empty (false, 0, a nil pointer, and any slice, map or string of length 0; a struct is never
empty), the members of an embedded record tagged `inline` are members of the enclosing object,
and on decoding each member of an object is decoded into the field its key resolves to, so a
field that no member resolves to keeps the zero value, as does one whose members are all `null`.
JSON documents are modelled as syntax trees, not as text.

Limits of the model: a Go string is a Lean `String`, so only the strings that are valid UTF-8,
which `encoding/json` writes unchanged, are values; numbers are integers; and an array decoded
into a slice that an earlier member of the same object has set finds a zero element past the
length of that slice, where `encoding/json` may find what the capacity still holds.
-/

namespace ThanosTypes

/-! ## JSON documents -/

/-- JSON documents as trees.  Numbers are the integers, the only numbers this schema holds. -/
inductive Json where
  | null
  | bool (b : Bool)
  | num (n : Int)
  | str (s : String)
  | arr (xs : List Json)
  | obj (members : List (String × Json))

/-- The members of a JSON object, in document order. -/
abbrev Fields := List (String × Json)

/-- The folding under which `encoding/json` compares a key with the name of a field when no name
equals the key: letters of either case are equal, the Kelvin sign equals `k` and the long s
equals `s`.  Against a name written in ASCII, as all names of this file are, this is the
comparison made by `bytes.EqualFold`. -/
def foldChar (c : Char) : Char :=
  if c = Char.ofNat 0x212A then 'k' else if c = Char.ofNat 0x17F then 's' else c.toLower

/-- A key with every character folded. -/
def foldKey (s : String) : String := String.mk (s.data.map foldChar)

/-- The field a member with key `k` is decoded into, given by the key of the field's tag: the
field whose key is `k`, otherwise the first field in declaration order whose key equals `k`
under folding.  A member that resolves to no field is skipped. -/
def resolveKey (keys : List String) (k : String) : Option String :=
  if k ∈ keys then some k else keys.find? fun t => foldKey t == foldKey k

/-- The values of the members that are decoded into the field under `key`, in document order. -/
def membersOf (keys : List String) (key : String) : Fields → List Json
  | [] => []
  | (k, v) :: rest =>
    if resolveKey keys k = some key then v :: membersOf keys key rest
    else membersOf keys key rest

/-- The object without the members that are decoded into the field under `key`. -/
def dropField (keys : List String) (key : String) : Fields → Fields
  | [] => []
  | (k, v) :: rest =>
    if resolveKey keys k = some key then dropField keys key rest
    else (k, v) :: dropField keys key rest

/-- The keys of an object, in document order. -/
def keysOf (fs : Fields) : List String := fs.map Prod.fst

/-- What a struct field contributes to the object of its record: nothing when the field is tagged
`omitempty` and its value is empty, one member under the tag's key otherwise. -/
def jsonField (key : String) (omitempty : Bool) (isEmpty : Bool) (v : Json) : Fields :=
  if omitempty && isEmpty then [] else [(key, v)]

/-- Documents decoded one after the other into a value that holds `cur`: each is decoded into
what the ones before it have left, so the last one to set a part of the value wins, and one that
does not decode fails the whole. -/
def decodeAllInto {α : Type} (decInto : α → Json → Option α) : α → List Json → Option α
  | cur, [] => some cur
  | cur, j :: js =>
    match decInto cur j with
    | none => none
    | some a => decodeAllInto decInto a js

/-- Decoding of one struct field that holds `cur` from the members of an object: the members that
resolve to the field are decoded into it in document order; when there is none, the field is
left as it is, which in a fresh record is the zero value. -/
def decodeField {α : Type} (keys : List String) (key : String) (decInto : α → Json → Option α)
    (cur : α) (o : Fields) : Option α :=
  decodeAllInto decInto cur (membersOf keys key o)

/-! ## Go values -/

/-- Go `int` on a 64-bit platform. -/
abbrev GoInt := {n : Int // -9223372036854775808 ≤ n ∧ n < 9223372036854775808}

/-- The zero `int`. -/
def GoInt.zero : GoInt := ⟨0, by decide⟩

/-- A Go slice: `none` is the nil slice, `some []` the empty slice that is not nil. -/
abbrev GoSlice (α : Type) := Option (List α)

/-- Go `len` of a slice is 0: the slice is nil or has no element. -/
def GoSlice.isEmpty {α : Type} : GoSlice α → Bool
  | none => true
  | some xs => xs.isEmpty

/-- Strictly ascending keys, compared as `encoding/json` sorts the keys of a map. -/
def keysAscending : List (String × String) → Bool
  | [] => true
  | [_] => true
  | (k, _) :: (k', v') :: rest => decide (k.data < k'.data) && keysAscending ((k', v') :: rest)

/-- The entries of a Go `map[string]string` that is not nil, listed by ascending key. -/
abbrev MapEntries := {l : List (String × String) // keysAscending l = true}

/-- A Go `map[string]string`: `none` is the nil map, `some ⟨[], _⟩` the empty map that is not
nil. -/
abbrev GoMap := Option MapEntries

/-- Go `len` of a map is 0: the map is nil or has no entry. -/
def GoMap.isEmpty : GoMap → Bool
  | none => true
  | some m => m.val.isEmpty

/-! ## Declarations that `thanos_types.go` takes from elsewhere -/

/-- The declarations the file uses and does not make: the types `metav1.Duration`,
`secret.Secret`, `metav1.LabelSelector`, `metav1.TypeMeta`, `metav1.ObjectMeta` and
`metav1.ListMeta` of other modules, each with its zero value and, where the records below hold it
in an encoded field, its own JSON encoding and its own decoding of a document into a value it
holds, and the struct tags of `ImageSpec` and `BaseObject`, which this package declares in
another file.  The tags are taken not to clash with the tags of the records that embed
`BaseObject`. -/
structure Deps where
  Duration : Type
  zeroDuration : Duration
  encodeDuration : Duration → Json
  decodeDurationInto : Duration → Json → Option Duration
  Secret : Type
  zeroSecret : Secret
  encodeSecret : Secret → Json
  decodeSecretInto : Secret → Json → Option Secret
  LabelSelector : Type
  zeroLabelSelector : LabelSelector
  encodeLabelSelector : LabelSelector → Json
  decodeLabelSelectorInto : LabelSelector → Json → Option LabelSelector
  TypeMeta : Type
  ObjectMeta : Type
  ListMeta : Type
  imageKey : String
  imageOmitEmpty : Bool
  repositoryKey : String
  repositoryOmitEmpty : Bool
  tagKey : String
  tagOmitEmpty : Bool
  pullPolicyKey : String
  pullPolicyOmitEmpty : Bool

/-! ## Constants and records -/

def thanosImageRepository : String := "quay.io/thanos/thanos"

def thanosImageTag : String := "v0.9.0"

def defaultPullPolicy : String := "pIfNotPresent"

/-- The pull policy `corev1.PullIfNotPresent` of the Kubernetes API. -/
def pullIfNotPresent : String := "IfNotPresent"

/-- Modelled from the spec: the declaration of `ImageSpec` is in another file of the package; the
spec gives its content as "image repository/tag/pull-policy" and `DefaultQuery` sets these three
fields from string constants. -/
structure ImageSpec where
  Repository : String
  Tag : String
  PullPolicy : String

/-- Modelled from the spec: the declaration of `BaseObject` is in another file of the package; the
spec describes it as the common base "image repository/tag/pull-policy" and `DefaultQuery` sets
its field `Image`. -/
structure BaseObject where
  Image : ImageSpec

def ImageSpec.zero : ImageSpec := { Repository := "", Tag := "", PullPolicy := "" }

def BaseObject.zero : BaseObject := { Image := ImageSpec.zero }

structure Query (D : Deps) where
  BaseObject : ThanosTypes.BaseObject
  LogLevel : String
  LogFormat : String
  HttpAddress : String
  HttpGracePeriod : String
  GRPCAddress : String
  GRPCGracePeriod : String
  WebRoutePrefix : String
  WebExternalPrefix : String
  WebPrefixHeader : String
  QueryTimeout : D.Duration
  QueryMaxConcurrent : GoInt
  QueryReplicaLabels : GoMap
  SelectorLabels : GoMap
  Stores : GoSlice String
  StoreSDDNSInterval : D.Duration
  StoreUnhealthyTimeout : D.Duration
  QueryAutoDownsampling : Bool
  QueryPartialResponse : Bool
  QueryDefaultEvaluationInterval : D.Duration
  StoreResponseTimeout : D.Duration

/-- The zero value of `Query`. -/
def Query.zero (D : Deps) : Query D :=
  { BaseObject := BaseObject.zero
    LogLevel := ""
    LogFormat := ""
    HttpAddress := ""
    HttpGracePeriod := ""
    GRPCAddress := ""
    GRPCGracePeriod := ""
    WebRoutePrefix := ""
    WebExternalPrefix := ""
    WebPrefixHeader := ""
    QueryTimeout := D.zeroDuration
    QueryMaxConcurrent := GoInt.zero
    QueryReplicaLabels := none
    SelectorLabels := none
    Stores := none
    StoreSDDNSInterval := D.zeroDuration
    StoreUnhealthyTimeout := D.zeroDuration
    QueryAutoDownsampling := false
    QueryPartialResponse := false
    QueryDefaultEvaluationInterval := D.zeroDuration
    StoreResponseTimeout := D.zeroDuration }

/-- The composite literal `DefaultQuery`: the fields it does not name keep their zero value. -/
def DefaultQuery (D : Deps) : Query D :=
  { Query.zero D with
    BaseObject :=
      { BaseObject.zero with
        Image :=
          { Repository := thanosImageRepository
            Tag := thanosImageTag
            PullPolicy := defaultPullPolicy } }
    LogLevel := "info"
    HttpAddress := "0.0.0.0:10902"
    GRPCAddress := "0.0.0.0:10901" }

/-- The empty record `ManagedTLS` (its content is a TODO of the source). -/
structure ManagedTLS where
  mk ::

structure TLS (D : Deps) where
  Managed : ManagedTLS
  Certificate : D.Secret

structure Remote (D : Deps) where
  URLs : GoSlice String
  TLS : ThanosTypes.TLS D

structure Local (D : Deps) where
  URLs : GoSlice String
  TLS : ThanosTypes.TLS D

structure ThanosDiscovery (D : Deps) where
  LabelSelector : D.LabelSelector

structure TimeRange where
  MinTime : String
  MaxTime : String

structure StoreGateway where
  BaseObject : ThanosTypes.BaseObject
  LogLevel : String
  LogFormat : String
  HttpAddress : String
  HttpGracePeriod : String
  GRPCAddress : String
  GRPCGracePeriod : String
  IndexCacheSize : String
  ChunkPoolSize : String
  StoreGRPCSeriesSampleLimit : String
  StoreGRPCSeriesMaxConcurrency : GoInt
  SyncBlockDuration : String
  BlockSyncConcurrency : GoInt
  TimeRanges : GoSlice TimeRange

structure Rule where
  BaseObject : ThanosTypes.BaseObject
  LogLevel : String
  LogFormat : String
  HttpAddress : String
  HttpGracePeriod : String
  GRPCAddress : String
  GRPCGracePeriod : String
  Labels : GoMap
  Rules : String
  ResendDelay : String
  EvalInterval : String
  TSDBBlockDuration : String
  TSDBRetention : String
  AlertmanagersURLs : GoSlice String
  AlertmanagersSendTimeout : String
  AlertmanagersSDDNSInterval : String
  AlertQueryURL : String
  AlertLabelDrop : GoMap
  WebRoutePrefix : String
  WebExternalPrefix : String
  WebPrefixHeader : String
  Queries : GoSlice String
  QuerySDDNSInterval : String

/-- ThanosSpec defines the desired state of Thanos. -/
structure ThanosSpec (D : Deps) where
  Remote : Option (ThanosTypes.Remote D)
  ThanosDiscovery : Option (ThanosTypes.ThanosDiscovery D)
  Local : Option (ThanosTypes.Local D)
  StoreGateway : Option ThanosTypes.StoreGateway
  Rule : Option ThanosTypes.Rule
  ObjectStore : String
  Query : Option (ThanosTypes.Query D)

/-- ThanosStatus defines the observed state of Thanos. -/
structure ThanosStatus where
  mk ::

/-- Thanos is the Schema for the thanos API. -/
structure Thanos (D : Deps) where
  TypeMeta : D.TypeMeta
  ObjectMeta : D.ObjectMeta
  Spec : ThanosSpec D
  Status : ThanosStatus

/-- ThanosList contains a list of Thanos. -/
structure ThanosList (D : Deps) where
  TypeMeta : D.TypeMeta
  ListMeta : D.ListMeta
  Items : GoSlice (Thanos D)

/-! ## Zero values -/

def TLS.zero (D : Deps) : TLS D := { Managed := ManagedTLS.mk, Certificate := D.zeroSecret }

def Remote.zero (D : Deps) : Remote D := { URLs := none, TLS := TLS.zero D }

def Local.zero (D : Deps) : Local D := { URLs := none, TLS := TLS.zero D }

def ThanosDiscovery.zero (D : Deps) : ThanosDiscovery D :=
  { LabelSelector := D.zeroLabelSelector }

def TimeRange.zero : TimeRange := { MinTime := "", MaxTime := "" }

def StoreGateway.zero : StoreGateway :=
  { BaseObject := BaseObject.zero
    LogLevel := ""
    LogFormat := ""
    HttpAddress := ""
    HttpGracePeriod := ""
    GRPCAddress := ""
    GRPCGracePeriod := ""
    IndexCacheSize := ""
    ChunkPoolSize := ""
    StoreGRPCSeriesSampleLimit := ""
    StoreGRPCSeriesMaxConcurrency := GoInt.zero
    SyncBlockDuration := ""
    BlockSyncConcurrency := GoInt.zero
    TimeRanges := none }

def Rule.zero : Rule :=
  { BaseObject := BaseObject.zero
    LogLevel := ""
    LogFormat := ""
    HttpAddress := ""
    HttpGracePeriod := ""
    GRPCAddress := ""
    GRPCGracePeriod := ""
    Labels := none
    Rules := ""
    ResendDelay := ""
    EvalInterval := ""
    TSDBBlockDuration := ""
    TSDBRetention := ""
    AlertmanagersURLs := none
    AlertmanagersSendTimeout := ""
    AlertmanagersSDDNSInterval := ""
    AlertQueryURL := ""
    AlertLabelDrop := none
    WebRoutePrefix := ""
    WebExternalPrefix := ""
    WebPrefixHeader := ""
    Queries := none
    QuerySDDNSInterval := "" }

def ThanosSpec.zero (D : Deps) : ThanosSpec D :=
  { Remote := none
    ThanosDiscovery := none
    Local := none
    StoreGateway := none
    Rule := none
    ObjectStore := ""
    Query := none }

/-! ## Struct tags: the JSON keys of the declared fields

One entry per directly declared field that has a key of its own, in declaration order.  The
embedded fields tagged `json:",inline"` (`BaseObject`, `metav1.TypeMeta`) have none. -/

def ThanosSpec.jsonKeys : List String :=
  ["remote", "thanosDiscovery", "local", "storeGateway", "rule", "object_store", "query"]

def Query.jsonKeys : List String :=
  ["logLevel", "logFormat", "httpAddress", "http_grace_period", "grpcAddress",
   "grpcGracePeriod", "webRoutePrefix", "webExternalPrefix", "webPrefixHeader", "queryTimeout",
   "queryMaxConcurrent", "queryReplicaLabel", "selectorLabels", "stores", "storeSDDNSInterval",
   "storeUnhealthyTimeout", "queryAutoDownsampling", "queryPartialResponse",
   "queryDefaultEvaluationInterval", "storeResponseTimeout"]

def TLS.jsonKeys : List String := ["managedTLS", "certificate"]

def Remote.jsonKeys : List String := ["urls", "tls"]

def Local.jsonKeys : List String := ["urls", "tls"]

def ThanosDiscovery.jsonKeys : List String := ["labelSelector"]

def TimeRange.jsonKeys : List String := ["minTime", "maxTime"]

def StoreGateway.jsonKeys : List String :=
  ["logLevel", "logFormat", "httpAddress", "http_grace_period", "grpcAddress",
   "grpcGracePeriod", "indexCacheSize", "chunkPoolSize", "storeGRPCSeriesSampleLimit",
   "storeGRPCSeriesMaxConcurrency", "syncBlockDuration", "blockSyncConcurrency", "timeRanges"]

def Rule.jsonKeys : List String :=
  ["logLevel", "logFormat", "httpAddress", "http_grace_period", "grpcAddress",
   "grpcGracePeriod", "labels", "rules", "resendDelay", "evalInterval", "tsdbBlockDuration",
   "tsdbRetention", "alertmanagersURLs", "alertmanagersSendTimeout",
   "alertmanagersSDDNSInterval", "alertQueryUrl", "alertLabelDrop", "webRoutePrefix",
   "webExternalPrefix", "webPrefixHeader", "queries", "querySddnsInterval"]

def Thanos.jsonKeys : List String := ["metadata", "spec", "status"]

def ThanosList.jsonKeys : List String := ["metadata", "items"]

/-! ## Encoding and decoding of the Go values -/

def encodeInt (i : GoInt) : Json := .num i.val

def encodeStrings : GoSlice String → Json
  | none => .null
  | some xs => .arr (xs.map Json.str)

def encodeEntries (l : List (String × String)) : Fields := l.map fun e => (e.1, Json.str e.2)

def encodeMap : GoMap → Json
  | none => .null
  | some m => .obj (encodeEntries m.val)

/-- A pointer: nil is `null`, otherwise the encoding of what it points to. -/
def encodePtr {α : Type} (enc : α → Json) : Option α → Json
  | none => .null
  | some a => enc a

/-- A string: `null` leaves the value as it is. -/
def decodeStringInto (cur : String) : Json → Option String
  | .null => some cur
  | .str s => some s
  | _ => none

/-- An `int`: `null` leaves the value as it is, a number out of range does not decode. -/
def decodeIntInto (cur : GoInt) : Json → Option GoInt
  | .null => some cur
  | .num n =>
    if h : -9223372036854775808 ≤ n ∧ n < 9223372036854775808 then some ⟨n, h⟩ else none
  | _ => none

/-- A `bool`: `null` leaves the value as it is. -/
def decodeBoolInto (cur : Bool) : Json → Option Bool
  | .null => some cur
  | .bool b => some b
  | _ => none

/-- The elements of a slice that is not nil; the nil slice has none. -/
def GoSlice.elems {α : Type} : GoSlice α → List α
  | none => []
  | some xs => xs

/-- The elements of an array, each decoded into the element the slice holds at its position, or
into a zero element past the end of the slice. -/
def decodeElemsInto {α : Type} (decInto : α → Json → Option α) (zero : α) :
    List α → List Json → Option (List α)
  | _, [] => some []
  | cur, j :: js =>
    match decInto (cur.headD zero) j with
    | none => none
    | some a =>
      match decodeElemsInto decInto zero cur.tail js with
      | none => none
      | some rest => some (a :: rest)

/-- A slice: `null` gives the nil slice, an array a slice that is not nil with one element for
each element of the array, also when the array has no element. -/
def decodeSliceInto {α : Type} (decInto : α → Json → Option α) (zero : α) (cur : GoSlice α) :
    Json → Option (GoSlice α)
  | .null => some none
  | .arr xs =>
    match decodeElemsInto decInto zero cur.elems xs with
    | none => none
    | some l => some (some l)
  | _ => none

/-- The assignment `m[k] = v` on the entries of a map: the entry under `k` is replaced, or a new
entry is put at its place in the order of the keys. -/
def setEntry (k v : String) : List (String × String) → List (String × String)
  | [] => [(k, v)]
  | (k', v') :: rest =>
    if k.data < k'.data then (k, v) :: (k', v') :: rest
    else if k = k' then (k, v) :: rest
    else (k', v') :: setEntry k v rest

/-- The members of an object assigned one after the other to the entries of a map; each value is
decoded into a fresh string. -/
def decodeEntriesInto : List (String × String) → Fields → Option (List (String × String))
  | cur, [] => some cur
  | cur, (k, j) :: rest =>
    match decodeStringInto "" j with
    | none => none
    | some v => decodeEntriesInto (setEntry k v cur) rest

/-- The entries of a map; the nil map has none. -/
def GoMap.entries : GoMap → List (String × String)
  | none => []
  | some m => m.val

/-- The entries as a map value.  `setEntry` keeps keys ascending
(`decodeEntriesInto_keysAscending`), so the second branch is never taken. -/
def MapEntries.ofList (l : List (String × String)) : MapEntries :=
  if h : keysAscending l = true then ⟨l, h⟩ else ⟨[], rfl⟩

/-- A map: `null` gives the nil map, an object a map that is not nil, which keeps the entries it
has and takes the members of the object, also when the object has no member. -/
def decodeMapInto (cur : GoMap) : Json → Option GoMap
  | .null => some none
  | .obj ms =>
    match decodeEntriesInto cur.entries ms with
    | none => none
    | some l => some (some (MapEntries.ofList l))
  | _ => none

/-- A pointer: `null` gives nil, any other document is decoded into what the pointer points to,
or into a fresh value when the pointer is nil. -/
def decodePtrInto {α : Type} (decInto : α → Json → Option α) (zero : α) (cur : Option α) :
    Json → Option (Option α)
  | .null => some none
  | j =>
    match decInto (cur.getD zero) j with
    | none => none
    | some a => some (some a)

/-! ## Struct fields by kind

`omitempty` is the flag of the field's tag; what counts as empty depends on the kind of the
field. -/

def stringField (key : String) (omitempty : Bool) (s : String) : Fields :=
  jsonField key omitempty (s == "") (.str s)

def intField (key : String) (omitempty : Bool) (i : GoInt) : Fields :=
  jsonField key omitempty (i.val == 0) (encodeInt i)

def boolField (key : String) (omitempty : Bool) (b : Bool) : Fields :=
  jsonField key omitempty (b == false) (.bool b)

def stringsField (key : String) (omitempty : Bool) (xs : GoSlice String) : Fields :=
  jsonField key omitempty xs.isEmpty (encodeStrings xs)

def mapField (key : String) (omitempty : Bool) (m : GoMap) : Fields :=
  jsonField key omitempty m.isEmpty (encodeMap m)

/-- A field of struct type: a struct is never empty, so `omitempty` on it omits nothing. -/
def structField (key : String) (omitempty : Bool) (v : Json) : Fields :=
  jsonField key omitempty false v

/-- A field of pointer type: empty when nil. -/
def ptrField {α : Type} (key : String) (omitempty : Bool) (enc : α → Json) (p : Option α) :
    Fields :=
  jsonField key omitempty p.isNone (encodePtr enc p)

/-! ## Encoding and decoding of the records -/

def ImageSpec.fields (D : Deps) (i : ImageSpec) : Fields :=
  stringField D.repositoryKey D.repositoryOmitEmpty i.Repository ++
  stringField D.tagKey D.tagOmitEmpty i.Tag ++
  stringField D.pullPolicyKey D.pullPolicyOmitEmpty i.PullPolicy

def encodeImageSpec (D : Deps) (i : ImageSpec) : Json := .obj (i.fields D)

/-- The keys of the fields of `ImageSpec`, in declaration order. -/
def ImageSpec.fieldKeys (D : Deps) : List String :=
  [D.repositoryKey, D.tagKey, D.pullPolicyKey]

/-- The members of an object decoded into a `ImageSpec`: each field takes, in document order, the
members whose key resolves to it; a field that no member resolves to is left as it is. -/
def decodeImageSpecMembers (D : Deps) (cur : ImageSpec) (o : Fields) : Option ImageSpec :=
  match decodeField (ImageSpec.fieldKeys D) D.repositoryKey decodeStringInto cur.Repository o with
  | none => none
  | some repository =>
  match decodeField (ImageSpec.fieldKeys D) D.tagKey decodeStringInto cur.Tag o with
  | none => none
  | some tag =>
  match decodeField (ImageSpec.fieldKeys D) D.pullPolicyKey decodeStringInto cur.PullPolicy o with
  | none => none
  | some pullPolicy =>
  some { Repository := repository, Tag := tag, PullPolicy := pullPolicy }

/-- A document decoded into a `ImageSpec` that holds `cur`: `null` leaves it as it is. -/
def decodeImageSpecInto (D : Deps) (cur : ImageSpec) : Json → Option ImageSpec
  | .null => some cur
  | .obj o => decodeImageSpecMembers D cur o
  | _ => none

/-- A document decoded into a fresh `ImageSpec`, which holds the zero value. -/
def decodeImageSpec (D : Deps) : Json → Option ImageSpec :=
  decodeImageSpecInto D ImageSpec.zero

/-- The record `r` with the field under `key` as it is in `cur`; a key of no field changes
nothing. -/
def ImageSpec.omitField (D : Deps) (key : String) (cur r : ImageSpec) : ImageSpec :=
  { Repository := if key = D.repositoryKey then cur.Repository else r.Repository
    Tag := if key = D.tagKey then cur.Tag else r.Tag
    PullPolicy := if key = D.pullPolicyKey then cur.PullPolicy else r.PullPolicy }

/-- The members an embedded `BaseObject` adds to the object of the record that embeds it. -/
def BaseObject.fields (D : Deps) (b : BaseObject) : Fields :=
  structField D.imageKey D.imageOmitEmpty (encodeImageSpec D b.Image)

/-- An embedded `BaseObject` is decoded from the members of the enclosing object, whose fields
include those of the embedded record: `keys` are the keys of all of them. -/
def decodeBaseObjectMembers (D : Deps) (keys : List String) (cur : BaseObject) (o : Fields) :
    Option BaseObject :=
  match decodeField keys D.imageKey (decodeImageSpecInto D) cur.Image o with
  | none => none
  | some image =>
  some { Image := image }

/-- The record `r` with the field under `key` as it is in `cur`; a key of no field changes
nothing. -/
def BaseObject.omitField (D : Deps) (key : String) (cur r : BaseObject) : BaseObject :=
  { Image := if key = D.imageKey then cur.Image else r.Image }

def ManagedTLS.fields (_ : ManagedTLS) : Fields := []

def encodeManagedTLS (m : ManagedTLS) : Json := .obj m.fields

/-- A document decoded into a `ManagedTLS`: the record has no field, so an object of any members
decodes. -/
def decodeManagedTLSInto (cur : ManagedTLS) : Json → Option ManagedTLS
  | .null => some cur
  | .obj _ => some cur
  | _ => none

def TLS.fields {D : Deps} (t : TLS D) : Fields :=
  structField "managedTLS" true (encodeManagedTLS t.Managed) ++
  structField "certificate" true (D.encodeSecret t.Certificate)

def encodeTLS {D : Deps} (t : TLS D) : Json := .obj t.fields

/-- The members of an object decoded into a `TLS`: each field takes, in document order, the
members whose key resolves to it; a field that no member resolves to is left as it is. -/
def decodeTLSMembers (D : Deps) (cur : TLS D) (o : Fields) : Option (TLS D) :=
  match decodeField TLS.jsonKeys "managedTLS" decodeManagedTLSInto cur.Managed o with
  | none => none
  | some managed =>
  match decodeField TLS.jsonKeys "certificate" D.decodeSecretInto cur.Certificate o with
  | none => none
  | some certificate =>
  some { Managed := managed, Certificate := certificate }

/-- A document decoded into a `TLS` that holds `cur`: `null` leaves it as it is. -/
def decodeTLSInto (D : Deps) (cur : TLS D) : Json → Option (TLS D)
  | .null => some cur
  | .obj o => decodeTLSMembers D cur o
  | _ => none

/-- A document decoded into a fresh `TLS`, which holds the zero value. -/
def decodeTLS (D : Deps) : Json → Option (TLS D) :=
  decodeTLSInto D (TLS.zero D)

/-- The record `r` with the field under `key` as it is in `cur`; a key of no field changes
nothing. -/
def TLS.omitField (D : Deps) (key : String) (cur r : TLS D) : TLS D :=
  { Managed := if key = "managedTLS" then cur.Managed else r.Managed
    Certificate := if key = "certificate" then cur.Certificate else r.Certificate }

def Remote.fields {D : Deps} (r : Remote D) : Fields :=
  stringsField "urls" false r.URLs ++
  structField "tls" false (encodeTLS r.TLS)

def encodeRemote {D : Deps} (r : Remote D) : Json := .obj r.fields

/-- The members of an object decoded into a `Remote`: each field takes, in document order, the
members whose key resolves to it; a field that no member resolves to is left as it is. -/
def decodeRemoteMembers (D : Deps) (cur : Remote D) (o : Fields) : Option (Remote D) :=
  match decodeField Remote.jsonKeys "urls" (decodeSliceInto decodeStringInto "") cur.URLs o with
  | none => none
  | some urls =>
  match decodeField Remote.jsonKeys "tls" (decodeTLSInto D) cur.TLS o with
  | none => none
  | some tls =>
  some { URLs := urls, TLS := tls }

/-- A document decoded into a `Remote` that holds `cur`: `null` leaves it as it is. -/
def decodeRemoteInto (D : Deps) (cur : Remote D) : Json → Option (Remote D)
  | .null => some cur
  | .obj o => decodeRemoteMembers D cur o
  | _ => none

/-- A document decoded into a fresh `Remote`, which holds the zero value. -/
def decodeRemote (D : Deps) : Json → Option (Remote D) :=
  decodeRemoteInto D (Remote.zero D)

/-- The record `r` with the field under `key` as it is in `cur`; a key of no field changes
nothing. -/
def Remote.omitField (D : Deps) (key : String) (cur r : Remote D) : Remote D :=
  { URLs := if key = "urls" then cur.URLs else r.URLs
    TLS := if key = "tls" then cur.TLS else r.TLS }

def Local.fields {D : Deps} (l : Local D) : Fields :=
  stringsField "urls" false l.URLs ++
  structField "tls" false (encodeTLS l.TLS)

def encodeLocal {D : Deps} (l : Local D) : Json := .obj l.fields

/-- The members of an object decoded into a `Local`: each field takes, in document order, the
members whose key resolves to it; a field that no member resolves to is left as it is. -/
def decodeLocalMembers (D : Deps) (cur : Local D) (o : Fields) : Option (Local D) :=
  match decodeField Local.jsonKeys "urls" (decodeSliceInto decodeStringInto "") cur.URLs o with
  | none => none
  | some urls =>
  match decodeField Local.jsonKeys "tls" (decodeTLSInto D) cur.TLS o with
  | none => none
  | some tls =>
  some { URLs := urls, TLS := tls }

/-- A document decoded into a `Local` that holds `cur`: `null` leaves it as it is. -/
def decodeLocalInto (D : Deps) (cur : Local D) : Json → Option (Local D)
  | .null => some cur
  | .obj o => decodeLocalMembers D cur o
  | _ => none

/-- A document decoded into a fresh `Local`, which holds the zero value. -/
def decodeLocal (D : Deps) : Json → Option (Local D) :=
  decodeLocalInto D (Local.zero D)

/-- The record `r` with the field under `key` as it is in `cur`; a key of no field changes
nothing. -/
def Local.omitField (D : Deps) (key : String) (cur r : Local D) : Local D :=
  { URLs := if key = "urls" then cur.URLs else r.URLs
    TLS := if key = "tls" then cur.TLS else r.TLS }

def ThanosDiscovery.fields {D : Deps} (t : ThanosDiscovery D) : Fields :=
  structField "labelSelector" false (D.encodeLabelSelector t.LabelSelector)

def encodeThanosDiscovery {D : Deps} (t : ThanosDiscovery D) : Json := .obj t.fields

/-- The members of an object decoded into a `ThanosDiscovery`: each field takes, in document order, the
members whose key resolves to it; a field that no member resolves to is left as it is. -/
def decodeThanosDiscoveryMembers (D : Deps) (cur : ThanosDiscovery D) (o : Fields) : Option (ThanosDiscovery D) :=
  match
    decodeField ThanosDiscovery.jsonKeys "labelSelector"
      D.decodeLabelSelectorInto cur.LabelSelector o with
  | none => none
  | some labelSelector =>
  some { LabelSelector := labelSelector }

/-- A document decoded into a `ThanosDiscovery` that holds `cur`: `null` leaves it as it is. -/
def decodeThanosDiscoveryInto (D : Deps) (cur : ThanosDiscovery D) : Json → Option (ThanosDiscovery D)
  | .null => some cur
  | .obj o => decodeThanosDiscoveryMembers D cur o
  | _ => none

/-- A document decoded into a fresh `ThanosDiscovery`, which holds the zero value. -/
def decodeThanosDiscovery (D : Deps) : Json → Option (ThanosDiscovery D) :=
  decodeThanosDiscoveryInto D (ThanosDiscovery.zero D)

/-- The record `r` with the field under `key` as it is in `cur`; a key of no field changes
nothing. -/
def ThanosDiscovery.omitField (D : Deps) (key : String) (cur r : ThanosDiscovery D) : ThanosDiscovery D :=
  { LabelSelector := if key = "labelSelector" then cur.LabelSelector else r.LabelSelector }

def TimeRange.fields (t : TimeRange) : Fields :=
  stringField "minTime" true t.MinTime ++
  stringField "maxTime" true t.MaxTime

def encodeTimeRange (t : TimeRange) : Json := .obj t.fields

/-- The members of an object decoded into a `TimeRange`: each field takes, in document order, the
members whose key resolves to it; a field that no member resolves to is left as it is. -/
def decodeTimeRangeMembers (cur : TimeRange) (o : Fields) : Option TimeRange :=
  match decodeField TimeRange.jsonKeys "minTime" decodeStringInto cur.MinTime o with
  | none => none
  | some minTime =>
  match decodeField TimeRange.jsonKeys "maxTime" decodeStringInto cur.MaxTime o with
  | none => none
  | some maxTime =>
  some { MinTime := minTime, MaxTime := maxTime }

/-- A document decoded into a `TimeRange` that holds `cur`: `null` leaves it as it is. -/
def decodeTimeRangeInto (cur : TimeRange) : Json → Option TimeRange
  | .null => some cur
  | .obj o => decodeTimeRangeMembers cur o
  | _ => none

/-- A document decoded into a fresh `TimeRange`, which holds the zero value. -/
def decodeTimeRange : Json → Option TimeRange :=
  decodeTimeRangeInto TimeRange.zero

/-- The record `r` with the field under `key` as it is in `cur`; a key of no field changes
nothing. -/
def TimeRange.omitField (key : String) (cur r : TimeRange) : TimeRange :=
  { MinTime := if key = "minTime" then cur.MinTime else r.MinTime
    MaxTime := if key = "maxTime" then cur.MaxTime else r.MaxTime }

def encodeTimeRanges : GoSlice TimeRange → Json
  | none => .null
  | some xs => .arr (xs.map encodeTimeRange)

def timeRangesField (key : String) (omitempty : Bool) (xs : GoSlice TimeRange) : Fields :=
  jsonField key omitempty xs.isEmpty (encodeTimeRanges xs)

def Query.fields {D : Deps} (q : Query D) : Fields :=
  q.BaseObject.fields D ++
  stringField "logLevel" true q.LogLevel ++
  stringField "logFormat" true q.LogFormat ++
  stringField "httpAddress" false q.HttpAddress ++
  stringField "http_grace_period" false q.HttpGracePeriod ++
  stringField "grpcAddress" false q.GRPCAddress ++
  stringField "grpcGracePeriod" false q.GRPCGracePeriod ++
  stringField "webRoutePrefix" true q.WebRoutePrefix ++
  stringField "webExternalPrefix" true q.WebExternalPrefix ++
  stringField "webPrefixHeader" true q.WebPrefixHeader ++
  structField "queryTimeout" true (D.encodeDuration q.QueryTimeout) ++
  intField "queryMaxConcurrent" true q.QueryMaxConcurrent ++
  mapField "queryReplicaLabel" true q.QueryReplicaLabels ++
  mapField "selectorLabels" true q.SelectorLabels ++
  stringsField "stores" true q.Stores ++
  structField "storeSDDNSInterval" true (D.encodeDuration q.StoreSDDNSInterval) ++
  structField "storeUnhealthyTimeout" true (D.encodeDuration q.StoreUnhealthyTimeout) ++
  boolField "queryAutoDownsampling" true q.QueryAutoDownsampling ++
  boolField "queryPartialResponse" true q.QueryPartialResponse ++
  structField "queryDefaultEvaluationInterval" true
    (D.encodeDuration q.QueryDefaultEvaluationInterval) ++
  structField "storeResponseTimeout" true (D.encodeDuration q.StoreResponseTimeout)

def encodeQuery {D : Deps} (q : Query D) : Json := .obj q.fields

/-- The keys of the fields of `Query`, those of the embedded `BaseObject` first. -/
def Query.fieldKeys (D : Deps) : List String := D.imageKey :: Query.jsonKeys

/-- The members of an object decoded into a `Query`: each field takes, in document order, the
members whose key resolves to it; a field that no member resolves to is left as it is. -/
def decodeQueryMembers (D : Deps) (cur : Query D) (o : Fields) : Option (Query D) :=
  match decodeBaseObjectMembers D (Query.fieldKeys D) cur.BaseObject o with
  | none => none
  | some baseObject =>
  match decodeField (Query.fieldKeys D) "logLevel" decodeStringInto cur.LogLevel o with
  | none => none
  | some logLevel =>
  match decodeField (Query.fieldKeys D) "logFormat" decodeStringInto cur.LogFormat o with
  | none => none
  | some logFormat =>
  match decodeField (Query.fieldKeys D) "httpAddress" decodeStringInto cur.HttpAddress o with
  | none => none
  | some httpAddress =>
  match
    decodeField (Query.fieldKeys D) "http_grace_period"
      decodeStringInto cur.HttpGracePeriod o with
  | none => none
  | some httpGracePeriod =>
  match decodeField (Query.fieldKeys D) "grpcAddress" decodeStringInto cur.GRPCAddress o with
  | none => none
  | some gRPCAddress =>
  match
    decodeField (Query.fieldKeys D) "grpcGracePeriod"
      decodeStringInto cur.GRPCGracePeriod o with
  | none => none
  | some gRPCGracePeriod =>
  match decodeField (Query.fieldKeys D) "webRoutePrefix" decodeStringInto cur.WebRoutePrefix o with
  | none => none
  | some webRoutePrefix =>
  match
    decodeField (Query.fieldKeys D) "webExternalPrefix"
      decodeStringInto cur.WebExternalPrefix o with
  | none => none
  | some webExternalPrefix =>
  match
    decodeField (Query.fieldKeys D) "webPrefixHeader"
      decodeStringInto cur.WebPrefixHeader o with
  | none => none
  | some webPrefixHeader =>
  match decodeField (Query.fieldKeys D) "queryTimeout" D.decodeDurationInto cur.QueryTimeout o with
  | none => none
  | some queryTimeout =>
  match
    decodeField (Query.fieldKeys D) "queryMaxConcurrent"
      decodeIntInto cur.QueryMaxConcurrent o with
  | none => none
  | some queryMaxConcurrent =>
  match
    decodeField (Query.fieldKeys D) "queryReplicaLabel"
      decodeMapInto cur.QueryReplicaLabels o with
  | none => none
  | some queryReplicaLabels =>
  match decodeField (Query.fieldKeys D) "selectorLabels" decodeMapInto cur.SelectorLabels o with
  | none => none
  | some selectorLabels =>
  match
    decodeField (Query.fieldKeys D) "stores"
      (decodeSliceInto decodeStringInto "") cur.Stores o with
  | none => none
  | some stores =>
  match
    decodeField (Query.fieldKeys D) "storeSDDNSInterval"
      D.decodeDurationInto cur.StoreSDDNSInterval o with
  | none => none
  | some storeSDDNSInterval =>
  match
    decodeField (Query.fieldKeys D) "storeUnhealthyTimeout"
      D.decodeDurationInto cur.StoreUnhealthyTimeout o with
  | none => none
  | some storeUnhealthyTimeout =>
  match
    decodeField (Query.fieldKeys D) "queryAutoDownsampling"
      decodeBoolInto cur.QueryAutoDownsampling o with
  | none => none
  | some queryAutoDownsampling =>
  match
    decodeField (Query.fieldKeys D) "queryPartialResponse"
      decodeBoolInto cur.QueryPartialResponse o with
  | none => none
  | some queryPartialResponse =>
  match
    decodeField (Query.fieldKeys D) "queryDefaultEvaluationInterval"
      D.decodeDurationInto cur.QueryDefaultEvaluationInterval o with
  | none => none
  | some queryDefaultEvaluationInterval =>
  match
    decodeField (Query.fieldKeys D) "storeResponseTimeout"
      D.decodeDurationInto cur.StoreResponseTimeout o with
  | none => none
  | some storeResponseTimeout =>
  some
    { BaseObject := baseObject
      LogLevel := logLevel
      LogFormat := logFormat
      HttpAddress := httpAddress
      HttpGracePeriod := httpGracePeriod
      GRPCAddress := gRPCAddress
      GRPCGracePeriod := gRPCGracePeriod
      WebRoutePrefix := webRoutePrefix
      WebExternalPrefix := webExternalPrefix
      WebPrefixHeader := webPrefixHeader
      QueryTimeout := queryTimeout
      QueryMaxConcurrent := queryMaxConcurrent
      QueryReplicaLabels := queryReplicaLabels
      SelectorLabels := selectorLabels
      Stores := stores
      StoreSDDNSInterval := storeSDDNSInterval
      StoreUnhealthyTimeout := storeUnhealthyTimeout
      QueryAutoDownsampling := queryAutoDownsampling
      QueryPartialResponse := queryPartialResponse
      QueryDefaultEvaluationInterval := queryDefaultEvaluationInterval
      StoreResponseTimeout := storeResponseTimeout }

/-- A document decoded into a `Query` that holds `cur`: `null` leaves it as it is. -/
def decodeQueryInto (D : Deps) (cur : Query D) : Json → Option (Query D)
  | .null => some cur
  | .obj o => decodeQueryMembers D cur o
  | _ => none

/-- A document decoded into a fresh `Query`, which holds the zero value. -/
def decodeQuery (D : Deps) : Json → Option (Query D) :=
  decodeQueryInto D (Query.zero D)

/-- The record `r` with the field under `key` as it is in `cur`; a key of no field changes
nothing. -/
def Query.omitField (D : Deps) (key : String) (cur r : Query D) : Query D :=
  { BaseObject := BaseObject.omitField D key cur.BaseObject r.BaseObject
    LogLevel := if key = "logLevel" then cur.LogLevel else r.LogLevel
    LogFormat := if key = "logFormat" then cur.LogFormat else r.LogFormat
    HttpAddress := if key = "httpAddress" then cur.HttpAddress else r.HttpAddress
    HttpGracePeriod := if key = "http_grace_period" then cur.HttpGracePeriod else r.HttpGracePeriod
    GRPCAddress := if key = "grpcAddress" then cur.GRPCAddress else r.GRPCAddress
    GRPCGracePeriod := if key = "grpcGracePeriod" then cur.GRPCGracePeriod else r.GRPCGracePeriod
    WebRoutePrefix := if key = "webRoutePrefix" then cur.WebRoutePrefix else r.WebRoutePrefix
    WebExternalPrefix :=
      if key = "webExternalPrefix" then cur.WebExternalPrefix
      else r.WebExternalPrefix
    WebPrefixHeader := if key = "webPrefixHeader" then cur.WebPrefixHeader else r.WebPrefixHeader
    QueryTimeout := if key = "queryTimeout" then cur.QueryTimeout else r.QueryTimeout
    QueryMaxConcurrent :=
      if key = "queryMaxConcurrent" then cur.QueryMaxConcurrent
      else r.QueryMaxConcurrent
    QueryReplicaLabels :=
      if key = "queryReplicaLabel" then cur.QueryReplicaLabels
      else r.QueryReplicaLabels
    SelectorLabels := if key = "selectorLabels" then cur.SelectorLabels else r.SelectorLabels
    Stores := if key = "stores" then cur.Stores else r.Stores
    StoreSDDNSInterval :=
      if key = "storeSDDNSInterval" then cur.StoreSDDNSInterval
      else r.StoreSDDNSInterval
    StoreUnhealthyTimeout :=
      if key = "storeUnhealthyTimeout" then cur.StoreUnhealthyTimeout
      else r.StoreUnhealthyTimeout
    QueryAutoDownsampling :=
      if key = "queryAutoDownsampling" then cur.QueryAutoDownsampling
      else r.QueryAutoDownsampling
    QueryPartialResponse :=
      if key = "queryPartialResponse" then cur.QueryPartialResponse
      else r.QueryPartialResponse
    QueryDefaultEvaluationInterval :=
      if key = "queryDefaultEvaluationInterval" then cur.QueryDefaultEvaluationInterval
      else r.QueryDefaultEvaluationInterval
    StoreResponseTimeout :=
      if key = "storeResponseTimeout" then cur.StoreResponseTimeout
      else r.StoreResponseTimeout }

def StoreGateway.fields (D : Deps) (g : StoreGateway) : Fields :=
  g.BaseObject.fields D ++
  stringField "logLevel" true g.LogLevel ++
  stringField "logFormat" true g.LogFormat ++
  stringField "httpAddress" false g.HttpAddress ++
  stringField "http_grace_period" false g.HttpGracePeriod ++
  stringField "grpcAddress" false g.GRPCAddress ++
  stringField "grpcGracePeriod" false g.GRPCGracePeriod ++
  stringField "indexCacheSize" false g.IndexCacheSize ++
  stringField "chunkPoolSize" true g.ChunkPoolSize ++
  stringField "storeGRPCSeriesSampleLimit" true g.StoreGRPCSeriesSampleLimit ++
  intField "storeGRPCSeriesMaxConcurrency" true g.StoreGRPCSeriesMaxConcurrency ++
  stringField "syncBlockDuration" true g.SyncBlockDuration ++
  intField "blockSyncConcurrency" true g.BlockSyncConcurrency ++
  timeRangesField "timeRanges" true g.TimeRanges

def encodeStoreGateway (D : Deps) (g : StoreGateway) : Json := .obj (g.fields D)

/-- The keys of the fields of `StoreGateway`, those of the embedded `BaseObject` first. -/
def StoreGateway.fieldKeys (D : Deps) : List String := D.imageKey :: StoreGateway.jsonKeys

/-- The members of an object decoded into a `StoreGateway`: each field takes, in document order, the
members whose key resolves to it; a field that no member resolves to is left as it is. -/
def decodeStoreGatewayMembers (D : Deps) (cur : StoreGateway) (o : Fields) : Option StoreGateway :=
  match decodeBaseObjectMembers D (StoreGateway.fieldKeys D) cur.BaseObject o with
  | none => none
  | some baseObject =>
  match decodeField (StoreGateway.fieldKeys D) "logLevel" decodeStringInto cur.LogLevel o with
  | none => none
  | some logLevel =>
  match decodeField (StoreGateway.fieldKeys D) "logFormat" decodeStringInto cur.LogFormat o with
  | none => none
  | some logFormat =>
  match decodeField (StoreGateway.fieldKeys D) "httpAddress" decodeStringInto cur.HttpAddress o with
  | none => none
  | some httpAddress =>
  match
    decodeField (StoreGateway.fieldKeys D) "http_grace_period"
      decodeStringInto cur.HttpGracePeriod o with
  | none => none
  | some httpGracePeriod =>
  match decodeField (StoreGateway.fieldKeys D) "grpcAddress" decodeStringInto cur.GRPCAddress o with
  | none => none
  | some gRPCAddress =>
  match
    decodeField (StoreGateway.fieldKeys D) "grpcGracePeriod"
      decodeStringInto cur.GRPCGracePeriod o with
  | none => none
  | some gRPCGracePeriod =>
  match
    decodeField (StoreGateway.fieldKeys D) "indexCacheSize"
      decodeStringInto cur.IndexCacheSize o with
  | none => none
  | some indexCacheSize =>
  match
    decodeField (StoreGateway.fieldKeys D) "chunkPoolSize"
      decodeStringInto cur.ChunkPoolSize o with
  | none => none
  | some chunkPoolSize =>
  match
    decodeField (StoreGateway.fieldKeys D) "storeGRPCSeriesSampleLimit"
      decodeStringInto cur.StoreGRPCSeriesSampleLimit o with
  | none => none
  | some storeGRPCSeriesSampleLimit =>
  match
    decodeField (StoreGateway.fieldKeys D) "storeGRPCSeriesMaxConcurrency"
      decodeIntInto cur.StoreGRPCSeriesMaxConcurrency o with
  | none => none
  | some storeGRPCSeriesMaxConcurrency =>
  match
    decodeField (StoreGateway.fieldKeys D) "syncBlockDuration"
      decodeStringInto cur.SyncBlockDuration o with
  | none => none
  | some syncBlockDuration =>
  match
    decodeField (StoreGateway.fieldKeys D) "blockSyncConcurrency"
      decodeIntInto cur.BlockSyncConcurrency o with
  | none => none
  | some blockSyncConcurrency =>
  match
    decodeField (StoreGateway.fieldKeys D) "timeRanges"
      (decodeSliceInto decodeTimeRangeInto TimeRange.zero) cur.TimeRanges o with
  | none => none
  | some timeRanges =>
  some
    { BaseObject := baseObject
      LogLevel := logLevel
      LogFormat := logFormat
      HttpAddress := httpAddress
      HttpGracePeriod := httpGracePeriod
      GRPCAddress := gRPCAddress
      GRPCGracePeriod := gRPCGracePeriod
      IndexCacheSize := indexCacheSize
      ChunkPoolSize := chunkPoolSize
      StoreGRPCSeriesSampleLimit := storeGRPCSeriesSampleLimit
      StoreGRPCSeriesMaxConcurrency := storeGRPCSeriesMaxConcurrency
      SyncBlockDuration := syncBlockDuration
      BlockSyncConcurrency := blockSyncConcurrency
      TimeRanges := timeRanges }

/-- A document decoded into a `StoreGateway` that holds `cur`: `null` leaves it as it is. -/
def decodeStoreGatewayInto (D : Deps) (cur : StoreGateway) : Json → Option StoreGateway
  | .null => some cur
  | .obj o => decodeStoreGatewayMembers D cur o
  | _ => none

/-- A document decoded into a fresh `StoreGateway`, which holds the zero value. -/
def decodeStoreGateway (D : Deps) : Json → Option StoreGateway :=
  decodeStoreGatewayInto D StoreGateway.zero

/-- The record `r` with the field under `key` as it is in `cur`; a key of no field changes
nothing. -/
def StoreGateway.omitField (D : Deps) (key : String) (cur r : StoreGateway) : StoreGateway :=
  { BaseObject := BaseObject.omitField D key cur.BaseObject r.BaseObject
    LogLevel := if key = "logLevel" then cur.LogLevel else r.LogLevel
    LogFormat := if key = "logFormat" then cur.LogFormat else r.LogFormat
    HttpAddress := if key = "httpAddress" then cur.HttpAddress else r.HttpAddress
    HttpGracePeriod := if key = "http_grace_period" then cur.HttpGracePeriod else r.HttpGracePeriod
    GRPCAddress := if key = "grpcAddress" then cur.GRPCAddress else r.GRPCAddress
    GRPCGracePeriod := if key = "grpcGracePeriod" then cur.GRPCGracePeriod else r.GRPCGracePeriod
    IndexCacheSize := if key = "indexCacheSize" then cur.IndexCacheSize else r.IndexCacheSize
    ChunkPoolSize := if key = "chunkPoolSize" then cur.ChunkPoolSize else r.ChunkPoolSize
    StoreGRPCSeriesSampleLimit :=
      if key = "storeGRPCSeriesSampleLimit" then cur.StoreGRPCSeriesSampleLimit
      else r.StoreGRPCSeriesSampleLimit
    StoreGRPCSeriesMaxConcurrency :=
      if key = "storeGRPCSeriesMaxConcurrency" then cur.StoreGRPCSeriesMaxConcurrency
      else r.StoreGRPCSeriesMaxConcurrency
    SyncBlockDuration :=
      if key = "syncBlockDuration" then cur.SyncBlockDuration
      else r.SyncBlockDuration
    BlockSyncConcurrency :=
      if key = "blockSyncConcurrency" then cur.BlockSyncConcurrency
      else r.BlockSyncConcurrency
    TimeRanges := if key = "timeRanges" then cur.TimeRanges else r.TimeRanges }

def Rule.fields (D : Deps) (r : Rule) : Fields :=
  r.BaseObject.fields D ++
  stringField "logLevel" true r.LogLevel ++
  stringField "logFormat" true r.LogFormat ++
  stringField "httpAddress" false r.HttpAddress ++
  stringField "http_grace_period" false r.HttpGracePeriod ++
  stringField "grpcAddress" false r.GRPCAddress ++
  stringField "grpcGracePeriod" false r.GRPCGracePeriod ++
  mapField "labels" true r.Labels ++
  stringField "rules" true r.Rules ++
  stringField "resendDelay" true r.ResendDelay ++
  stringField "evalInterval" true r.EvalInterval ++
  stringField "tsdbBlockDuration" true r.TSDBBlockDuration ++
  stringField "tsdbRetention" true r.TSDBRetention ++
  stringsField "alertmanagersURLs" true r.AlertmanagersURLs ++
  stringField "alertmanagersSendTimeout" true r.AlertmanagersSendTimeout ++
  stringField "alertmanagersSDDNSInterval" true r.AlertmanagersSDDNSInterval ++
  stringField "alertQueryUrl" true r.AlertQueryURL ++
  mapField "alertLabelDrop" true r.AlertLabelDrop ++
  stringField "webRoutePrefix" true r.WebRoutePrefix ++
  stringField "webExternalPrefix" true r.WebExternalPrefix ++
  stringField "webPrefixHeader" true r.WebPrefixHeader ++
  stringsField "queries" false r.Queries ++
  stringField "querySddnsInterval" true r.QuerySDDNSInterval

def encodeRule (D : Deps) (r : Rule) : Json := .obj (r.fields D)

/-- The keys of the fields of `Rule`, those of the embedded `BaseObject` first. -/
def Rule.fieldKeys (D : Deps) : List String := D.imageKey :: Rule.jsonKeys

/-- The members of an object decoded into a `Rule`: each field takes, in document order, the
members whose key resolves to it; a field that no member resolves to is left as it is. -/
def decodeRuleMembers (D : Deps) (cur : Rule) (o : Fields) : Option Rule :=
  match decodeBaseObjectMembers D (Rule.fieldKeys D) cur.BaseObject o with
  | none => none
  | some baseObject =>
  match decodeField (Rule.fieldKeys D) "logLevel" decodeStringInto cur.LogLevel o with
  | none => none
  | some logLevel =>
  match decodeField (Rule.fieldKeys D) "logFormat" decodeStringInto cur.LogFormat o with
  | none => none
  | some logFormat =>
  match decodeField (Rule.fieldKeys D) "httpAddress" decodeStringInto cur.HttpAddress o with
  | none => none
  | some httpAddress =>
  match
    decodeField (Rule.fieldKeys D) "http_grace_period"
      decodeStringInto cur.HttpGracePeriod o with
  | none => none
  | some httpGracePeriod =>
  match decodeField (Rule.fieldKeys D) "grpcAddress" decodeStringInto cur.GRPCAddress o with
  | none => none
  | some gRPCAddress =>
  match decodeField (Rule.fieldKeys D) "grpcGracePeriod" decodeStringInto cur.GRPCGracePeriod o with
  | none => none
  | some gRPCGracePeriod =>
  match decodeField (Rule.fieldKeys D) "labels" decodeMapInto cur.Labels o with
  | none => none
  | some labels =>
  match decodeField (Rule.fieldKeys D) "rules" decodeStringInto cur.Rules o with
  | none => none
  | some rules =>
  match decodeField (Rule.fieldKeys D) "resendDelay" decodeStringInto cur.ResendDelay o with
  | none => none
  | some resendDelay =>
  match decodeField (Rule.fieldKeys D) "evalInterval" decodeStringInto cur.EvalInterval o with
  | none => none
  | some evalInterval =>
  match
    decodeField (Rule.fieldKeys D) "tsdbBlockDuration"
      decodeStringInto cur.TSDBBlockDuration o with
  | none => none
  | some tSDBBlockDuration =>
  match decodeField (Rule.fieldKeys D) "tsdbRetention" decodeStringInto cur.TSDBRetention o with
  | none => none
  | some tSDBRetention =>
  match
    decodeField (Rule.fieldKeys D) "alertmanagersURLs"
      (decodeSliceInto decodeStringInto "") cur.AlertmanagersURLs o with
  | none => none
  | some alertmanagersURLs =>
  match
    decodeField (Rule.fieldKeys D) "alertmanagersSendTimeout"
      decodeStringInto cur.AlertmanagersSendTimeout o with
  | none => none
  | some alertmanagersSendTimeout =>
  match
    decodeField (Rule.fieldKeys D) "alertmanagersSDDNSInterval"
      decodeStringInto cur.AlertmanagersSDDNSInterval o with
  | none => none
  | some alertmanagersSDDNSInterval =>
  match decodeField (Rule.fieldKeys D) "alertQueryUrl" decodeStringInto cur.AlertQueryURL o with
  | none => none
  | some alertQueryURL =>
  match decodeField (Rule.fieldKeys D) "alertLabelDrop" decodeMapInto cur.AlertLabelDrop o with
  | none => none
  | some alertLabelDrop =>
  match decodeField (Rule.fieldKeys D) "webRoutePrefix" decodeStringInto cur.WebRoutePrefix o with
  | none => none
  | some webRoutePrefix =>
  match
    decodeField (Rule.fieldKeys D) "webExternalPrefix"
      decodeStringInto cur.WebExternalPrefix o with
  | none => none
  | some webExternalPrefix =>
  match decodeField (Rule.fieldKeys D) "webPrefixHeader" decodeStringInto cur.WebPrefixHeader o with
  | none => none
  | some webPrefixHeader =>
  match
    decodeField (Rule.fieldKeys D) "queries"
      (decodeSliceInto decodeStringInto "") cur.Queries o with
  | none => none
  | some queries =>
  match
    decodeField (Rule.fieldKeys D) "querySddnsInterval"
      decodeStringInto cur.QuerySDDNSInterval o with
  | none => none
  | some querySDDNSInterval =>
  some
    { BaseObject := baseObject
      LogLevel := logLevel
      LogFormat := logFormat
      HttpAddress := httpAddress
      HttpGracePeriod := httpGracePeriod
      GRPCAddress := gRPCAddress
      GRPCGracePeriod := gRPCGracePeriod
      Labels := labels
      Rules := rules
      ResendDelay := resendDelay
      EvalInterval := evalInterval
      TSDBBlockDuration := tSDBBlockDuration
      TSDBRetention := tSDBRetention
      AlertmanagersURLs := alertmanagersURLs
      AlertmanagersSendTimeout := alertmanagersSendTimeout
      AlertmanagersSDDNSInterval := alertmanagersSDDNSInterval
      AlertQueryURL := alertQueryURL
      AlertLabelDrop := alertLabelDrop
      WebRoutePrefix := webRoutePrefix
      WebExternalPrefix := webExternalPrefix
      WebPrefixHeader := webPrefixHeader
      Queries := queries
      QuerySDDNSInterval := querySDDNSInterval }

/-- A document decoded into a `Rule` that holds `cur`: `null` leaves it as it is. -/
def decodeRuleInto (D : Deps) (cur : Rule) : Json → Option Rule
  | .null => some cur
  | .obj o => decodeRuleMembers D cur o
  | _ => none

/-- A document decoded into a fresh `Rule`, which holds the zero value. -/
def decodeRule (D : Deps) : Json → Option Rule :=
  decodeRuleInto D Rule.zero

/-- The record `r` with the field under `key` as it is in `cur`; a key of no field changes
nothing. -/
def Rule.omitField (D : Deps) (key : String) (cur r : Rule) : Rule :=
  { BaseObject := BaseObject.omitField D key cur.BaseObject r.BaseObject
    LogLevel := if key = "logLevel" then cur.LogLevel else r.LogLevel
    LogFormat := if key = "logFormat" then cur.LogFormat else r.LogFormat
    HttpAddress := if key = "httpAddress" then cur.HttpAddress else r.HttpAddress
    HttpGracePeriod := if key = "http_grace_period" then cur.HttpGracePeriod else r.HttpGracePeriod
    GRPCAddress := if key = "grpcAddress" then cur.GRPCAddress else r.GRPCAddress
    GRPCGracePeriod := if key = "grpcGracePeriod" then cur.GRPCGracePeriod else r.GRPCGracePeriod
    Labels := if key = "labels" then cur.Labels else r.Labels
    Rules := if key = "rules" then cur.Rules else r.Rules
    ResendDelay := if key = "resendDelay" then cur.ResendDelay else r.ResendDelay
    EvalInterval := if key = "evalInterval" then cur.EvalInterval else r.EvalInterval
    TSDBBlockDuration :=
      if key = "tsdbBlockDuration" then cur.TSDBBlockDuration
      else r.TSDBBlockDuration
    TSDBRetention := if key = "tsdbRetention" then cur.TSDBRetention else r.TSDBRetention
    AlertmanagersURLs :=
      if key = "alertmanagersURLs" then cur.AlertmanagersURLs
      else r.AlertmanagersURLs
    AlertmanagersSendTimeout :=
      if key = "alertmanagersSendTimeout" then cur.AlertmanagersSendTimeout
      else r.AlertmanagersSendTimeout
    AlertmanagersSDDNSInterval :=
      if key = "alertmanagersSDDNSInterval" then cur.AlertmanagersSDDNSInterval
      else r.AlertmanagersSDDNSInterval
    AlertQueryURL := if key = "alertQueryUrl" then cur.AlertQueryURL else r.AlertQueryURL
    AlertLabelDrop := if key = "alertLabelDrop" then cur.AlertLabelDrop else r.AlertLabelDrop
    WebRoutePrefix := if key = "webRoutePrefix" then cur.WebRoutePrefix else r.WebRoutePrefix
    WebExternalPrefix :=
      if key = "webExternalPrefix" then cur.WebExternalPrefix
      else r.WebExternalPrefix
    WebPrefixHeader := if key = "webPrefixHeader" then cur.WebPrefixHeader else r.WebPrefixHeader
    Queries := if key = "queries" then cur.Queries else r.Queries
    QuerySDDNSInterval :=
      if key = "querySddnsInterval" then cur.QuerySDDNSInterval
      else r.QuerySDDNSInterval }

def ThanosSpec.fields {D : Deps} (s : ThanosSpec D) : Fields :=
  ptrField "remote" true encodeRemote s.Remote ++
  ptrField "thanosDiscovery" true encodeThanosDiscovery s.ThanosDiscovery ++
  ptrField "local" true encodeLocal s.Local ++
  ptrField "storeGateway" true (encodeStoreGateway D) s.StoreGateway ++
  ptrField "rule" true (encodeRule D) s.Rule ++
  stringField "object_store" true s.ObjectStore ++
  ptrField "query" true encodeQuery s.Query

def encodeThanosSpec {D : Deps} (s : ThanosSpec D) : Json := .obj s.fields

/-- The members of an object decoded into a `ThanosSpec`: each field takes, in document order, the
members whose key resolves to it; a field that no member resolves to is left as it is. -/
def decodeThanosSpecMembers (D : Deps) (cur : ThanosSpec D) (o : Fields) : Option (ThanosSpec D) :=
  match
    decodeField ThanosSpec.jsonKeys "remote"
      (decodePtrInto (decodeRemoteInto D) (Remote.zero D)) cur.Remote o with
  | none => none
  | some remote =>
  match
    decodeField ThanosSpec.jsonKeys "thanosDiscovery"
      (decodePtrInto (decodeThanosDiscoveryInto D) (ThanosDiscovery.zero D)) cur.ThanosDiscovery o with
  | none => none
  | some thanosDiscovery =>
  match
    decodeField ThanosSpec.jsonKeys "local"
      (decodePtrInto (decodeLocalInto D) (Local.zero D)) cur.Local o with
  | none => none
  | some local_ =>
  match
    decodeField ThanosSpec.jsonKeys "storeGateway"
      (decodePtrInto (decodeStoreGatewayInto D) StoreGateway.zero) cur.StoreGateway o with
  | none => none
  | some storeGateway =>
  match
    decodeField ThanosSpec.jsonKeys "rule"
      (decodePtrInto (decodeRuleInto D) Rule.zero) cur.Rule o with
  | none => none
  | some rule =>
  match decodeField ThanosSpec.jsonKeys "object_store" decodeStringInto cur.ObjectStore o with
  | none => none
  | some objectStore =>
  match
    decodeField ThanosSpec.jsonKeys "query"
      (decodePtrInto (decodeQueryInto D) (Query.zero D)) cur.Query o with
  | none => none
  | some query =>
  some
    { Remote := remote
      ThanosDiscovery := thanosDiscovery
      Local := local_
      StoreGateway := storeGateway
      Rule := rule
      ObjectStore := objectStore
      Query := query }

/-- A document decoded into a `ThanosSpec` that holds `cur`: `null` leaves it as it is. -/
def decodeThanosSpecInto (D : Deps) (cur : ThanosSpec D) : Json → Option (ThanosSpec D)
  | .null => some cur
  | .obj o => decodeThanosSpecMembers D cur o
  | _ => none

/-- A document decoded into a fresh `ThanosSpec`, which holds the zero value. -/
def decodeThanosSpec (D : Deps) : Json → Option (ThanosSpec D) :=
  decodeThanosSpecInto D (ThanosSpec.zero D)

/-- The record `r` with the field under `key` as it is in `cur`; a key of no field changes
nothing. -/
def ThanosSpec.omitField (D : Deps) (key : String) (cur r : ThanosSpec D) : ThanosSpec D :=
  { Remote := if key = "remote" then cur.Remote else r.Remote
    ThanosDiscovery := if key = "thanosDiscovery" then cur.ThanosDiscovery else r.ThanosDiscovery
    Local := if key = "local" then cur.Local else r.Local
    StoreGateway := if key = "storeGateway" then cur.StoreGateway else r.StoreGateway
    Rule := if key = "rule" then cur.Rule else r.Rule
    ObjectStore := if key = "object_store" then cur.ObjectStore else r.ObjectStore
    Query := if key = "query" then cur.Query else r.Query }

/-! ## Registration -/

/-- The objects a scheme builder has been given to register, by type name, oldest first. -/
abbrev Registry := List String

/-- Modelled from the spec: `SchemeBuilder` is declared in another file of the package and its
`Register` belongs to controller-runtime; the spec calls it a shared type registry, to which
`Register` adds the given objects in the order given. -/
def Register (reg : Registry) (objects : List String) : Registry := reg ++ objects

/-- The type name of `&Thanos{}`. -/
def thanosTypeName : String := "Thanos"

/-- The type name of `&ThanosList{}`. -/
def thanosListTypeName : String := "ThanosList"

/-- The package's `init`: `SchemeBuilder.Register(&Thanos{}, &ThanosList{})`. -/
def init (schemeBuilder : Registry) : Registry :=
  Register schemeBuilder [thanosTypeName, thanosListTypeName]

/-! ## When a record comes back from its encoding -/

/-- The value of an external type comes back from its own encoding. -/
def Deps.restoresDuration (D : Deps) (d : D.Duration) : Prop :=
  D.decodeDurationInto D.zeroDuration (D.encodeDuration d) = some d

/-- The value of an external type comes back from its own encoding. -/
def Deps.restoresSecret (D : Deps) (c : D.Secret) : Prop :=
  D.decodeSecretInto D.zeroSecret (D.encodeSecret c) = some c

/-- The value of an external type comes back from its own encoding. -/
def Deps.restoresLabelSelector (D : Deps) (l : D.LabelSelector) : Prop :=
  D.decodeLabelSelectorInto D.zeroLabelSelector (D.encodeLabelSelector l) = some l

/-- The keys of the three fields of `ImageSpec` are pairwise distinct. -/
def Deps.imageSpecKeysDistinct (D : Deps) : Prop :=
  [D.repositoryKey, D.tagKey, D.pullPolicyKey].Nodup

/-- The key of `BaseObject.Image`, which an embedding record takes into its own object, is none of
the keys of the records that embed `BaseObject`. -/
def Deps.imageKeyFree (D : Deps) : Prop :=
  D.imageKey ∉ Query.jsonKeys ∧ D.imageKey ∉ StoreGateway.jsonKeys ∧ D.imageKey ∉ Rule.jsonKeys

/-- No slice or map tagged `omitempty` is empty without being nil, and the durations come back
from their own encoding. -/
structure Query.Restorable {D : Deps} (q : Query D) : Prop where
  queryReplicaLabels : q.QueryReplicaLabels ≠ some ⟨[], rfl⟩
  selectorLabels : q.SelectorLabels ≠ some ⟨[], rfl⟩
  stores : q.Stores ≠ some []
  queryTimeout : D.restoresDuration q.QueryTimeout
  storeSDDNSInterval : D.restoresDuration q.StoreSDDNSInterval
  storeUnhealthyTimeout : D.restoresDuration q.StoreUnhealthyTimeout
  queryDefaultEvaluationInterval : D.restoresDuration q.QueryDefaultEvaluationInterval
  storeResponseTimeout : D.restoresDuration q.StoreResponseTimeout

/-- No slice tagged `omitempty` is empty without being nil. -/
structure StoreGateway.Restorable (g : StoreGateway) : Prop where
  timeRanges : g.TimeRanges ≠ some []

/-- No slice or map tagged `omitempty` is empty without being nil. -/
structure Rule.Restorable (r : Rule) : Prop where
  labels : r.Labels ≠ some ⟨[], rfl⟩
  alertmanagersURLs : r.AlertmanagersURLs ≠ some []
  alertLabelDrop : r.AlertLabelDrop ≠ some ⟨[], rfl⟩

/-- Every component that is present comes back from its encoding: its slices and maps tagged
`omitempty` are not empty without being nil, and its values of external types come back from
their own encoding. -/
structure ThanosSpec.Restorable {D : Deps} (s : ThanosSpec D) : Prop where
  remoteCertificate : ∀ r, s.Remote = some r → D.restoresSecret r.TLS.Certificate
  labelSelector : ∀ t, s.ThanosDiscovery = some t → D.restoresLabelSelector t.LabelSelector
  localCertificate : ∀ l, s.Local = some l → D.restoresSecret l.TLS.Certificate
  storeGateway : ∀ g, s.StoreGateway = some g → g.Restorable
  rule : ∀ r, s.Rule = some r → r.Restorable
  query : ∀ q, s.Query = some q → q.Restorable

/-- The keys of the object a document is; a document that is no object has none. -/
def Json.keys : Json → List String
  | .obj members => keysOf members
  | _ => []

/-- Omitting a field is safe for a decoder of a record with the field keys `keys`: the empty
object decodes to `zero`; when an object decodes, the object without the members of the field
under `f` decodes to `without f` of the same record; and when no member resolves to the field under
`f`, the decoded record is its own `without f`. -/
def OmissionSafe {α : Type} (keys : List String) (decode : Json → Option α)
    (without : String → α → α) (zero : α) : Prop :=
  decode (.obj []) = some zero ∧
    (∀ (o : Fields) (f : String) (r : α), decode (.obj o) = some r →
      decode (.obj (dropField keys f o)) = some (without f r)) ∧
    (∀ (o : Fields) (f : String) (r : α), membersOf keys f o = [] → decode (.obj o) = some r →
      without f r = r)

/-- The encoding of the TLS value has a member for the managed setting. -/
def TLS.carriesManaged {D : Deps} (t : TLS D) : Prop := "managedTLS" ∈ (encodeTLS t).keys

/-- The encoding of the TLS value has a member for the certificate. -/
def TLS.carriesCertificate {D : Deps} (t : TLS D) : Prop := "certificate" ∈ (encodeTLS t).keys

/-! ## Concrete inputs -/

/-- A choice of the external declarations on which the definitions evaluate: a duration is a
count of nanoseconds written as a number, a secret and a label selector are strings, and the
fields of `ImageSpec` and `BaseObject` have the keys `image`, `repository`, `tag` and
`pullPolicy`, all tagged `omitempty`. -/
def Deps.sample : Deps :=
  { Duration := Int
    zeroDuration := 0
    encodeDuration := fun d => .num d
    decodeDurationInto := fun _ j =>
      match j with
      | .num n => some n
      | _ => none
    Secret := String
    zeroSecret := ""
    encodeSecret := fun c => .str c
    decodeSecretInto := decodeStringInto
    LabelSelector := String
    zeroLabelSelector := ""
    encodeLabelSelector := fun l => .str l
    decodeLabelSelectorInto := decodeStringInto
    TypeMeta := Unit
    ObjectMeta := Unit
    ListMeta := Unit
    imageKey := "image"
    imageOmitEmpty := true
    repositoryKey := "repository"
    repositoryOmitEmpty := true
    tagKey := "tag"
    tagOmitEmpty := true
    pullPolicyKey := "pullPolicy"
    pullPolicyOmitEmpty := true }

/-- The value `ThanosSpec{Query: &Query{Stores: []string{}}}`: a Query whose only set field is a
slice of stores that is empty and not nil. -/
def emptyStoresSpec : ThanosSpec Deps.sample :=
  { ThanosSpec.zero Deps.sample with
    Query := some { Query.zero Deps.sample with Stores := some [] } }

/-- What `emptyStoresSpec` decodes to after encoding: the slice of stores is nil. -/
def nilStoresSpec : ThanosSpec Deps.sample :=
  { ThanosSpec.zero Deps.sample with Query := some (Query.zero Deps.sample) }

/-- A spec with a remote endpoint, a store gateway with one time range, and the default query
extended with a store address and a replica label. -/
def populatedSpec : ThanosSpec Deps.sample :=
  { Remote := some { URLs := some ["http://remote:10901"],
                     TLS := { Managed := ManagedTLS.mk, Certificate := "remote-cert" } }
    ThanosDiscovery := some { LabelSelector := "app=thanos" }
    Local := none
    StoreGateway :=
      some { StoreGateway.zero with
             IndexCacheSize := "250MB"
             BlockSyncConcurrency := ⟨20, by decide⟩
             TimeRanges := some [{ MinTime := "-2w", MaxTime := "" }] }
    Rule := some { Rule.zero with Queries := some [] }
    ObjectStore := "bucket"
    Query :=
      some { DefaultQuery Deps.sample with
             QueryTimeout := (300000000000 : Int)
             QueryReplicaLabels := some ⟨[("replica", "a")], by decide⟩
             Stores := some ["dnssrv+store"]
             QueryAutoDownsampling := true } }

/-- The value `TLS{Certificate: ...}` with a certificate that is set. -/
def certificateTLS : TLS Deps.sample :=
  { Managed := ManagedTLS.mk, Certificate := "tls-secret" }

/-- The members of the document `{"query": {"stores": ["dns+store"]}, "OBJECT_STORE": "bucket"}`,
whose second key differs by case from the key of its field. -/
def variantKeysDocument : Fields :=
  [("query", .obj [("stores", .arr [.str "dns+store"])]), ("OBJECT_STORE", .str "bucket")]

/-- What `variantKeysDocument` decodes to. -/
def variantKeysSpec : ThanosSpec Deps.sample :=
  { ThanosSpec.zero Deps.sample with
    ObjectStore := "bucket"
    Query := some { Query.zero Deps.sample with Stores := some ["dns+store"] } }

/-! ## The members decoded into a field -/

theorem resolveKey_of_mem (keys : List String) (k : String) (h : k ∈ keys) :
    resolveKey keys k = some k := by
  simp [resolveKey, h]

theorem membersOf_nil (keys : List String) (key : String) : membersOf keys key [] = [] := rfl

theorem membersOf_append (keys : List String) (key : String) (a b : Fields) :
    membersOf keys key (a ++ b) = membersOf keys key a ++ membersOf keys key b := by
  induction a with
  | nil => rfl
  | cons m a ih =>
    obtain ⟨k, v⟩ := m
    by_cases h : resolveKey keys k = some key
    · simp [membersOf, h, ih]
    · simp [membersOf, h, ih]

theorem membersOf_jsonField (keys : List String) (key k : String) (o e : Bool) (v : Json) :
    membersOf keys key (jsonField k o e v) =
      if (o && e) = true then [] else if resolveKey keys k = some key then [v] else [] := by
  unfold jsonField
  by_cases h : (o && e) = true
  · simp [h, membersOf]
  · by_cases h2 : resolveKey keys k = some key
    · simp [h, membersOf, h2]
    · simp [h, membersOf, h2]

theorem membersOf_jsonField_append (keys : List String) (key k : String) (o e : Bool) (v : Json)
    (rest : Fields) :
    membersOf keys key (jsonField k o e v ++ rest) =
      if (o && e) = true then membersOf keys key rest
      else if resolveKey keys k = some key then v :: membersOf keys key rest
      else membersOf keys key rest := by
  rw [membersOf_append, membersOf_jsonField]
  by_cases h : (o && e) = true
  · simp [h]
  · by_cases h2 : resolveKey keys k = some key
    · simp [h, h2]
    · simp [h, h2]

/-! ## Round trips of the Go values -/

theorem decodeAllInto_nil {α : Type} (decInto : α → Json → Option α) (cur : α) :
    decodeAllInto decInto cur [] = some cur := rfl

theorem decodeAllInto_singleton {α : Type} (decInto : α → Json → Option α) (cur : α)
    (j : Json) : decodeAllInto decInto cur [j] = decInto cur j := by
  unfold decodeAllInto
  cases decInto cur j with
  | none => rfl
  | some a => rfl

theorem decodeAllInto_ite {α : Type} (decInto : α → Json → Option α) (zero : α) (p : Prop)
    [Decidable p] (j : Json) (v : α) (hz : p → v = zero) (hd : decInto zero j = some v) :
    decodeAllInto decInto zero (if p then [] else [j]) = some v := by
  by_cases h : p
  · simp [h, decodeAllInto_nil, hz h]
  · simp [h, decodeAllInto_singleton, hd]

theorem decodeAllInto_string (p : Prop) [Decidable p] (s : String) (hz : p → s = "") :
    decodeAllInto decodeStringInto "" (if p then [] else [Json.str s]) = some s :=
  decodeAllInto_ite _ _ _ _ _ hz rfl

theorem decodeStringInto_str (cur s : String) : decodeStringInto cur (Json.str s) = some s := rfl

theorem decodeBoolInto_bool (cur b : Bool) : decodeBoolInto cur (Json.bool b) = some b := rfl

theorem decodeIntInto_encodeInt (cur i : GoInt) : decodeIntInto cur (encodeInt i) = some i := by
  obtain ⟨n, hn⟩ := i
  simp [decodeIntInto, encodeInt, hn]

theorem decodeAllInto_int (p : Prop) [Decidable p] (i : GoInt) (hz : p → i.val = 0) :
    decodeAllInto decodeIntInto GoInt.zero (if p then [] else [encodeInt i]) = some i :=
  decodeAllInto_ite _ _ _ _ _ (fun h => Subtype.ext (hz h)) (decodeIntInto_encodeInt _ i)

theorem decodeAllInto_bool (p : Prop) [Decidable p] (b : Bool) (hz : p → b = false) :
    decodeAllInto decodeBoolInto false (if p then [] else [Json.bool b]) = some b :=
  decodeAllInto_ite _ _ _ _ _ hz rfl

theorem decodeElemsInto_map {α : Type} (enc : α → Json) (decInto : α → Json → Option α)
    (zero : α) (l : List α) (h : ∀ a ∈ l, decInto zero (enc a) = some a) :
    decodeElemsInto decInto zero [] (l.map enc) = some l := by
  induction l with
  | nil => rfl
  | cons a l ih =>
    have h1 : decInto zero (enc a) = some a := h a (List.mem_cons_self a l)
    have h2 : decodeElemsInto decInto zero [] (l.map enc) = some l :=
      ih (fun b hb => h b (List.mem_cons_of_mem a hb))
    simp [decodeElemsInto, h1, h2]

theorem decodeSliceInto_encodeStrings (xs : GoSlice String) :
    decodeSliceInto decodeStringInto "" none (encodeStrings xs) = some xs := by
  cases xs with
  | none => rfl
  | some l =>
    have h := decodeElemsInto_map Json.str decodeStringInto "" l (fun _ _ => rfl)
    simp [encodeStrings, decodeSliceInto, GoSlice.elems, h]

theorem goSlice_eq_none_of_isEmpty {α : Type} (xs : GoSlice α) (h : xs ≠ some []) :
    xs.isEmpty = true → xs = none := by
  cases xs with
  | none => intro _; rfl
  | some l =>
    cases l with
    | nil => exact absurd rfl h
    | cons a l => intro h'; simp [GoSlice.isEmpty] at h'

theorem decodeAllInto_strings (p : Prop) [Decidable p] (xs : GoSlice String)
    (hz : p → xs = none) :
    decodeAllInto (decodeSliceInto decodeStringInto "") none
      (if p then [] else [encodeStrings xs]) = some xs :=
  decodeAllInto_ite _ _ _ _ _ hz (decodeSliceInto_encodeStrings xs)

/-! ### Maps -/

theorem keysAscending_tail (e : String × String) (l : List (String × String))
    (h : keysAscending (e :: l) = true) : keysAscending l = true := by
  cases l with
  | nil => rfl
  | cons e' l =>
    obtain ⟨k, v⟩ := e
    obtain ⟨k', v'⟩ := e'
    simp [keysAscending] at h
    exact h.2

theorem keysAscending_head_lt (e : String × String) (l : List (String × String))
    (h : keysAscending (e :: l) = true) : ∀ e' ∈ l, e.1.data < e'.1.data := by
  induction l generalizing e with
  | nil => intro e' he'; cases he'
  | cons e2 l ih =>
    obtain ⟨k, v⟩ := e
    obtain ⟨k2, v2⟩ := e2
    simp [keysAscending] at h
    intro e' he'
    rcases List.mem_cons.mp he' with h1 | h1
    · subst h1
      exact h.1
    · exact lt_trans h.1 (ih (k2, v2) h.2 e' h1)

theorem keysAscending_cons (e : String × String) (l : List (String × String))
    (h1 : ∀ e' ∈ l, e.1.data < e'.1.data) (h2 : keysAscending l = true) :
    keysAscending (e :: l) = true := by
  cases l with
  | nil => rfl
  | cons e2 l =>
    obtain ⟨k, v⟩ := e
    obtain ⟨k2, v2⟩ := e2
    have h3 := h1 (k2, v2) (List.mem_cons_self _ _)
    simp [keysAscending, h2]
    exact h3

theorem mem_setEntry (k v : String) (l : List (String × String)) (e : String × String)
    (h : e ∈ setEntry k v l) : e = (k, v) ∨ e ∈ l := by
  induction l with
  | nil =>
    simp [setEntry] at h
    exact Or.inl h
  | cons e2 l ih =>
    obtain ⟨k2, v2⟩ := e2
    unfold setEntry at h
    by_cases h1 : k.data < k2.data
    · simp only [h1, if_true] at h
      rcases List.mem_cons.mp h with h2 | h2
      · exact Or.inl h2
      · exact Or.inr h2
    · by_cases h2 : k = k2
      · subst h2
        simp only [h1, if_true, if_false] at h
        rcases List.mem_cons.mp h with h3 | h3
        · exact Or.inl h3
        · exact Or.inr (List.mem_cons_of_mem _ h3)
      · simp only [h1, h2, if_false] at h
        rcases List.mem_cons.mp h with h3 | h3
        · exact Or.inr (by rw [h3]; exact List.mem_cons_self _ _)
        · rcases ih h3 with h4 | h4
          · exact Or.inl h4
          · exact Or.inr (List.mem_cons_of_mem _ h4)

theorem keysAscending_setEntry (k v : String) (l : List (String × String))
    (h : keysAscending l = true) : keysAscending (setEntry k v l) = true := by
  induction l with
  | nil => rfl
  | cons e2 l ih =>
    obtain ⟨k2, v2⟩ := e2
    have hlt := keysAscending_head_lt _ _ h
    have htl := keysAscending_tail _ _ h
    unfold setEntry
    by_cases h1 : k.data < k2.data
    · simp only [h1, if_true]
      apply keysAscending_cons _ _ _ h
      intro e' he'
      rcases List.mem_cons.mp he' with h3 | h3
      · rw [h3]
        exact h1
      · exact lt_trans h1 (hlt e' h3)
    · by_cases h2 : k = k2
      · subst h2
        simp only [h1, if_true, if_false]
        exact keysAscending_cons (k, v) l hlt htl
      · simp only [h1, h2, if_false]
        have h3 : k2.data < k.data := by
          rcases lt_trichotomy k.data k2.data with h4 | h4 | h4
          · exact absurd h4 h1
          · exact absurd (String.ext h4) h2
          · exact h4
        apply keysAscending_cons _ _ _ (ih htl)
        intro e' he'
        rcases mem_setEntry k v l e' he' with h4 | h4
        · rw [h4]
          exact h3
        · exact hlt e' h4

theorem setEntry_append (k v : String) (acc : List (String × String))
    (h : ∀ e ∈ acc, e.1.data < k.data) : setEntry k v acc = acc ++ [(k, v)] := by
  induction acc with
  | nil => rfl
  | cons e acc ih =>
    obtain ⟨k2, v2⟩ := e
    have h1 : k2.data < k.data := h (k2, v2) (List.mem_cons_self _ _)
    have h2 : ¬ k.data < k2.data := fun h3 => lt_irrefl _ (lt_trans h1 h3)
    have h3 : ¬ k = k2 := fun h4 => by
      rw [h4] at h1
      exact lt_irrefl _ h1
    have h4 := ih (fun e he => h e (List.mem_cons_of_mem _ he))
    simp [setEntry, h2, h3, h4]

theorem keysAscending_append_lt (acc l : List (String × String)) (e : String × String)
    (h : keysAscending (acc ++ e :: l) = true) : ∀ e' ∈ acc, e'.1.data < e.1.data := by
  induction acc with
  | nil => intro e' he'; cases he'
  | cons a acc ih =>
    intro e' he'
    rcases List.mem_cons.mp he' with h1 | h1
    · rw [h1]
      exact keysAscending_head_lt a (acc ++ e :: l) h e (by simp)
    · exact ih (keysAscending_tail _ _ h) e' h1

theorem decodeEntriesInto_encodeEntries (acc l : List (String × String))
    (h : keysAscending (acc ++ l) = true) :
    decodeEntriesInto acc (encodeEntries l) = some (acc ++ l) := by
  induction l generalizing acc with
  | nil => simp [encodeEntries, decodeEntriesInto]
  | cons e l ih =>
    obtain ⟨k, v⟩ := e
    have h1 : encodeEntries ((k, v) :: l) = (k, Json.str v) :: encodeEntries l := rfl
    have h2 := setEntry_append k v acc (keysAscending_append_lt acc l (k, v) h)
    have h3 : keysAscending ((acc ++ [(k, v)]) ++ l) = true := by
      simpa using h
    have h4 := ih (acc ++ [(k, v)]) h3
    rw [h1]
    simp [decodeEntriesInto, decodeStringInto, h2, h4]

theorem decodeEntriesInto_keysAscending (ms : Fields) (cur l : List (String × String))
    (hc : keysAscending cur = true) (h : decodeEntriesInto cur ms = some l) :
    keysAscending l = true := by
  induction ms generalizing cur with
  | nil =>
    simp [decodeEntriesInto] at h
    subst h
    exact hc
  | cons e ms ih =>
    obtain ⟨k, j⟩ := e
    unfold decodeEntriesInto at h
    cases hv : decodeStringInto "" j with
    | none => simp [hv] at h
    | some v =>
      simp only [hv] at h
      exact ih (setEntry k v cur) (keysAscending_setEntry k v cur hc) h

theorem decodeMapInto_encodeMap (m : GoMap) : decodeMapInto none (encodeMap m) = some m := by
  cases m with
  | none => rfl
  | some e =>
    obtain ⟨l, hl⟩ := e
    have h := decodeEntriesInto_encodeEntries [] l (by simpa using hl)
    simp [encodeMap, decodeMapInto, GoMap.entries, h, MapEntries.ofList, hl]

theorem goMap_eq_none_of_isEmpty (m : GoMap) (h : m ≠ some ⟨[], rfl⟩) :
    m.isEmpty = true → m = none := by
  cases m with
  | none => intro _; rfl
  | some e =>
    obtain ⟨l, hl⟩ := e
    cases l with
    | nil => exact absurd rfl h
    | cons a l => intro h'; simp [GoMap.isEmpty] at h'

theorem decodeAllInto_map (p : Prop) [Decidable p] (m : GoMap) (hz : p → m = none) :
    decodeAllInto decodeMapInto none (if p then [] else [encodeMap m]) = some m :=
  decodeAllInto_ite _ _ _ _ _ hz (decodeMapInto_encodeMap m)

/-! ## Round trips of the records -/

theorem decodeImageSpec_encodeImageSpec (D : Deps) (i : ImageSpec)
    (hk : D.imageSpecKeysDistinct) : decodeImageSpec D (encodeImageSpec D i) = some i := by
  simp [Deps.imageSpecKeysDistinct] at hk
  obtain ⟨⟨h1, h2⟩, h3⟩ := hk
  have r1 : resolveKey (ImageSpec.fieldKeys D) D.repositoryKey = some D.repositoryKey :=
    resolveKey_of_mem _ _ (by simp [ImageSpec.fieldKeys])
  have r2 : resolveKey (ImageSpec.fieldKeys D) D.tagKey = some D.tagKey :=
    resolveKey_of_mem _ _ (by simp [ImageSpec.fieldKeys])
  have r3 : resolveKey (ImageSpec.fieldKeys D) D.pullPolicyKey = some D.pullPolicyKey :=
    resolveKey_of_mem _ _ (by simp [ImageSpec.fieldKeys])
  simp [decodeImageSpec, decodeImageSpecInto, encodeImageSpec, decodeImageSpecMembers,
    decodeField, ImageSpec.fields, stringField, membersOf_jsonField_append,
    membersOf_jsonField, r1, r2, r3, decodeAllInto_string, h1, h2, h3, Ne.symm h1, Ne.symm h2,
    Ne.symm h3, ImageSpec.zero]

theorem decodeTimeRange_encodeTimeRange (t : TimeRange) :
    decodeTimeRange (encodeTimeRange t) = some t := by
  have r1 : resolveKey TimeRange.jsonKeys "minTime" = some "minTime" := rfl
  have r2 : resolveKey TimeRange.jsonKeys "maxTime" = some "maxTime" := rfl
  simp [decodeTimeRange, decodeTimeRangeInto, encodeTimeRange, decodeTimeRangeMembers,
    decodeField, TimeRange.fields, stringField, membersOf_jsonField_append, membersOf_jsonField,
    r1, r2, decodeAllInto_string, TimeRange.zero]

theorem decodeSliceInto_encodeTimeRanges (xs : GoSlice TimeRange) :
    decodeSliceInto decodeTimeRangeInto TimeRange.zero none (encodeTimeRanges xs) = some xs := by
  cases xs with
  | none => rfl
  | some l =>
    have h := decodeElemsInto_map encodeTimeRange decodeTimeRangeInto TimeRange.zero l
      (fun a _ => decodeTimeRange_encodeTimeRange a)
    simp [encodeTimeRanges, decodeSliceInto, GoSlice.elems, h]

theorem decodeAllInto_timeRanges (p : Prop) [Decidable p] (xs : GoSlice TimeRange)
    (hz : p → xs = none) :
    decodeAllInto (decodeSliceInto decodeTimeRangeInto TimeRange.zero) none
      (if p then [] else [encodeTimeRanges xs]) = some xs :=
  decodeAllInto_ite _ _ _ _ _ hz (decodeSliceInto_encodeTimeRanges xs)

theorem resolveKey_query (D : Deps) (k : String) (h : k ∈ Query.jsonKeys) :
    resolveKey (Query.fieldKeys D) k = some k :=
  resolveKey_of_mem _ _ (List.mem_cons_of_mem _ h)

theorem resolveKey_query_image (D : Deps) :
    resolveKey (Query.fieldKeys D) D.imageKey = some D.imageKey :=
  resolveKey_of_mem _ _ (List.mem_cons_self _ _)

theorem decodeQuery_encodeQuery (D : Deps) (q : Query D) (hi : D.imageSpecKeysDistinct)
    (hf : D.imageKeyFree) (hq : q.Restorable) : decodeQuery D (encodeQuery q) = some q := by
  have hkeys := hf.1
  have hkeys' : ∀ k ∈ Query.jsonKeys, ¬ k = D.imageKey := fun k hk h => hf.1 (h ▸ hk)
  simp [Query.jsonKeys] at hkeys hkeys'
  have hb := decodeImageSpec_encodeImageSpec D q.BaseObject.Image hi
  simp only [decodeImageSpec] at hb
  obtain ⟨h1, h2, h3, h4, h5, h6, h7, h8⟩ := hq
  simp only [Deps.restoresDuration] at h4 h5 h6 h7 h8
  have m1 := decodeAllInto_map (q.QueryReplicaLabels.isEmpty = true) q.QueryReplicaLabels
    (goMap_eq_none_of_isEmpty _ h1)
  have m2 := decodeAllInto_map (q.SelectorLabels.isEmpty = true) q.SelectorLabels
    (goMap_eq_none_of_isEmpty _ h2)
  have m3 := decodeAllInto_strings (q.Stores.isEmpty = true) q.Stores
    (goSlice_eq_none_of_isEmpty _ h3)
  simp [decodeQuery, decodeQueryInto, encodeQuery, decodeQueryMembers, decodeBaseObjectMembers,
    decodeField, Query.fields, BaseObject.fields, Query.zero, BaseObject.zero, hb, hkeys, hkeys',
    stringField, intField, boolField, stringsField, mapField, structField,
    membersOf_jsonField_append, membersOf_jsonField, resolveKey_query, resolveKey_query_image,
    Query.jsonKeys, decodeAllInto_string, decodeAllInto_int, decodeAllInto_bool, m1, m2, m3,
    h4, h5, h6, h7, h8, decodeAllInto_singleton, decodeAllInto_nil, decodeStringInto_str,
    decodeBoolInto_bool, decodeIntInto_encodeInt]

theorem resolveKey_storeGateway (D : Deps) (k : String) (h : k ∈ StoreGateway.jsonKeys) :
    resolveKey (StoreGateway.fieldKeys D) k = some k :=
  resolveKey_of_mem _ _ (List.mem_cons_of_mem _ h)

theorem resolveKey_storeGateway_image (D : Deps) :
    resolveKey (StoreGateway.fieldKeys D) D.imageKey = some D.imageKey :=
  resolveKey_of_mem _ _ (List.mem_cons_self _ _)

theorem decodeStoreGateway_encodeStoreGateway (D : Deps) (g : StoreGateway)
    (hi : D.imageSpecKeysDistinct) (hf : D.imageKeyFree) (hg : g.Restorable) :
    decodeStoreGateway D (encodeStoreGateway D g) = some g := by
  have hkeys := hf.2.1
  have hkeys' : ∀ k ∈ StoreGateway.jsonKeys, ¬ k = D.imageKey := fun k hk h => hf.2.1 (h ▸ hk)
  simp [StoreGateway.jsonKeys] at hkeys hkeys'
  have hb := decodeImageSpec_encodeImageSpec D g.BaseObject.Image hi
  simp only [decodeImageSpec] at hb
  have m1 := decodeAllInto_timeRanges (g.TimeRanges.isEmpty = true) g.TimeRanges
    (goSlice_eq_none_of_isEmpty _ hg.timeRanges)
  simp [decodeStoreGateway, decodeStoreGatewayInto, encodeStoreGateway,
    decodeStoreGatewayMembers, decodeBaseObjectMembers, decodeField, StoreGateway.fields,
    BaseObject.fields, StoreGateway.zero, BaseObject.zero, hb, hkeys, hkeys', stringField,
    intField, timeRangesField, structField, membersOf_jsonField_append, membersOf_jsonField,
    resolveKey_storeGateway, resolveKey_storeGateway_image, StoreGateway.jsonKeys,
    decodeAllInto_string, decodeAllInto_int, m1, decodeAllInto_singleton, decodeAllInto_nil,
    decodeStringInto_str, decodeIntInto_encodeInt]

theorem resolveKey_rule (D : Deps) (k : String) (h : k ∈ Rule.jsonKeys) :
    resolveKey (Rule.fieldKeys D) k = some k :=
  resolveKey_of_mem _ _ (List.mem_cons_of_mem _ h)

theorem resolveKey_rule_image (D : Deps) :
    resolveKey (Rule.fieldKeys D) D.imageKey = some D.imageKey :=
  resolveKey_of_mem _ _ (List.mem_cons_self _ _)

theorem decodeRule_encodeRule (D : Deps) (r : Rule) (hi : D.imageSpecKeysDistinct)
    (hf : D.imageKeyFree) (hr : r.Restorable) : decodeRule D (encodeRule D r) = some r := by
  have hkeys := hf.2.2
  have hkeys' : ∀ k ∈ Rule.jsonKeys, ¬ k = D.imageKey := fun k hk h => hf.2.2 (h ▸ hk)
  simp [Rule.jsonKeys] at hkeys hkeys'
  have hb := decodeImageSpec_encodeImageSpec D r.BaseObject.Image hi
  simp only [decodeImageSpec] at hb
  have m1 := decodeAllInto_map (r.Labels.isEmpty = true) r.Labels
    (goMap_eq_none_of_isEmpty _ hr.labels)
  have m2 := decodeAllInto_strings (r.AlertmanagersURLs.isEmpty = true) r.AlertmanagersURLs
    (goSlice_eq_none_of_isEmpty _ hr.alertmanagersURLs)
  have m3 := decodeAllInto_map (r.AlertLabelDrop.isEmpty = true) r.AlertLabelDrop
    (goMap_eq_none_of_isEmpty _ hr.alertLabelDrop)
  simp [decodeRule, decodeRuleInto, encodeRule, decodeRuleMembers, decodeBaseObjectMembers,
    decodeField, Rule.fields, BaseObject.fields, Rule.zero, BaseObject.zero, hb, hkeys, hkeys',
    stringField, stringsField, mapField, structField, membersOf_jsonField_append,
    membersOf_jsonField, resolveKey_rule, resolveKey_rule_image, Rule.jsonKeys,
    decodeAllInto_string, m1, m2, m3, decodeAllInto_singleton, decodeAllInto_nil,
    decodeStringInto_str, decodeSliceInto_encodeStrings]

theorem decodeTLS_encodeTLS (D : Deps) (t : TLS D) (hc : D.restoresSecret t.Certificate) :
    decodeTLS D (encodeTLS t) = some t := by
  simp only [Deps.restoresSecret] at hc
  have r1 : resolveKey TLS.jsonKeys "managedTLS" = some "managedTLS" := rfl
  have r2 : resolveKey TLS.jsonKeys "certificate" = some "certificate" := rfl
  simp [decodeTLS, decodeTLSInto, encodeTLS, decodeTLSMembers, decodeField, TLS.fields,
    TLS.zero, structField, membersOf_jsonField_append, membersOf_jsonField, r1, r2,
    decodeAllInto_singleton, hc, encodeManagedTLS, decodeManagedTLSInto]

theorem decodeRemote_encodeRemote (D : Deps) (r : Remote D)
    (hc : D.restoresSecret r.TLS.Certificate) : decodeRemote D (encodeRemote r) = some r := by
  have r1 : resolveKey Remote.jsonKeys "urls" = some "urls" := rfl
  have r2 : resolveKey Remote.jsonKeys "tls" = some "tls" := rfl
  have ht := decodeTLS_encodeTLS D r.TLS hc
  simp only [decodeTLS] at ht
  simp [decodeRemote, decodeRemoteInto, encodeRemote, decodeRemoteMembers, decodeField,
    Remote.fields, Remote.zero, structField, stringsField, membersOf_jsonField_append,
    membersOf_jsonField, r1, r2, decodeAllInto_singleton, decodeSliceInto_encodeStrings, ht]

theorem decodeLocal_encodeLocal (D : Deps) (l : Local D)
    (hc : D.restoresSecret l.TLS.Certificate) : decodeLocal D (encodeLocal l) = some l := by
  have r1 : resolveKey Local.jsonKeys "urls" = some "urls" := rfl
  have r2 : resolveKey Local.jsonKeys "tls" = some "tls" := rfl
  have ht := decodeTLS_encodeTLS D l.TLS hc
  simp only [decodeTLS] at ht
  simp [decodeLocal, decodeLocalInto, encodeLocal, decodeLocalMembers, decodeField,
    Local.fields, Local.zero, structField, stringsField, membersOf_jsonField_append,
    membersOf_jsonField, r1, r2, decodeAllInto_singleton, decodeSliceInto_encodeStrings, ht]

theorem decodeThanosDiscovery_encodeThanosDiscovery (D : Deps) (t : ThanosDiscovery D)
    (hl : D.restoresLabelSelector t.LabelSelector) :
    decodeThanosDiscovery D (encodeThanosDiscovery t) = some t := by
  simp only [Deps.restoresLabelSelector] at hl
  have r1 : resolveKey ThanosDiscovery.jsonKeys "labelSelector" = some "labelSelector" := rfl
  simp [decodeThanosDiscovery, decodeThanosDiscoveryInto, encodeThanosDiscovery,
    decodeThanosDiscoveryMembers, decodeField, ThanosDiscovery.fields, ThanosDiscovery.zero,
    structField, membersOf_jsonField, r1, decodeAllInto_singleton, hl]

theorem decodeAllInto_ptr {α : Type} (p : Prop) [Decidable p] (enc : α → Json)
    (decInto : α → Json → Option α) (zero : α) (ptr : Option α) (hz : p → ptr = none)
    (h : ∀ a, ptr = some a → decodePtrInto decInto zero none (enc a) = some (some a)) :
    decodeAllInto (decodePtrInto decInto zero) none (if p then [] else [encodePtr enc ptr]) =
      some ptr := by
  cases ptr with
  | none =>
    by_cases hp : p
    · simp [hp, decodeAllInto_nil]
    · simp [hp, decodeAllInto_singleton, encodePtr, decodePtrInto]
  | some a =>
    have hp : ¬ p := fun hp => by simpa using hz hp
    simpa [hp, decodeAllInto_singleton, encodePtr] using h a rfl

theorem decodePtrInto_obj {α : Type} (decInto : α → Json → Option α) (zero : α) (o : Fields)
    (a : α) (h : decInto zero (.obj o) = some a) :
    decodePtrInto decInto zero none (.obj o) = some (some a) := by
  simp [decodePtrInto, h]

/-! ## Omitted fields -/

theorem membersOf_dropField (keys : List String) (key f : String) (o : Fields) :
    membersOf keys key (dropField keys f o) = if f = key then [] else membersOf keys key o := by
  induction o with
  | nil => simp [dropField, membersOf]
  | cons m o ih =>
    obtain ⟨k, v⟩ := m
    by_cases h1 : resolveKey keys k = some f
    · by_cases h2 : f = key
      · subst h2
        simpa [dropField, membersOf, h1] using ih
      · have h3 : ¬ resolveKey keys k = some key := by
          rw [h1]
          intro h4
          exact h2 (Option.some.inj h4)
        simpa [dropField, membersOf, h1, h2, h3] using ih
    · by_cases h2 : f = key
      · subst h2
        simpa [dropField, membersOf, h1] using ih
      · have h2' : ¬ key = f := fun h => h2 h.symm
        by_cases h3 : resolveKey keys k = some key
        · simp [dropField, membersOf, h2, h2', h3, ih]
        · simp [dropField, membersOf, h1, h2, h3, ih]

theorem dropField_eq_self (keys : List String) (f : String) (o : Fields)
    (h : membersOf keys f o = []) : dropField keys f o = o := by
  induction o with
  | nil => rfl
  | cons m o ih =>
    obtain ⟨k, v⟩ := m
    by_cases h1 : resolveKey keys k = some f
    · simp [membersOf, h1] at h
    · simp only [membersOf, h1, if_false] at h
      simp [dropField, h1, ih h]

theorem decodeField_dropField {α : Type} (keys : List String) (key : String)
    (decInto : α → Json → Option α) (cur : α) (o : Fields) (f : String) (x : α)
    (h : decodeField keys key decInto cur o = some x) :
    decodeField keys key decInto cur (dropField keys f o) =
      some (if f = key then cur else x) := by
  unfold decodeField at h ⊢
  rw [membersOf_dropField]
  by_cases h1 : f = key
  · simp [h1, decodeAllInto_nil]
  · simp [h1, h]

theorem decodeBaseObjectMembers_dropField (D : Deps) (keys : List String) (cur b : BaseObject)
    (o : Fields) (f : String) (h : decodeBaseObjectMembers D keys cur o = some b) :
    decodeBaseObjectMembers D keys cur (dropField keys f o) =
      some (BaseObject.omitField D f cur b) := by
  unfold decodeBaseObjectMembers at h ⊢
  split at h
  · contradiction
  · rename_i x0 r0 h0
    have hr := Option.some.inj h
    subst hr
    simp only [decodeField_dropField _ _ _ _ _ f _ h0]
    rfl

theorem decodeImageSpecMembers_dropField (D : Deps) (cur r : ImageSpec) (o : Fields) (f : String)
    (h : decodeImageSpecMembers D cur o = some r) :
    decodeImageSpecMembers D cur (dropField (ImageSpec.fieldKeys D) f o) =
      some (ImageSpec.omitField D f cur r) := by
  unfold decodeImageSpecMembers at h ⊢
  repeat' split at h
  all_goals first
    | contradiction
    | skip
  rename_i x0 r0 h0 x1 r1 h1 x2 r2 h2
  have hr := Option.some.inj h
  subst hr
  simp only [decodeField_dropField _ _ _ _ _ f _ h0, decodeField_dropField _ _ _ _ _ f _ h1,
    decodeField_dropField _ _ _ _ _ f _ h2]
  rfl

theorem decodeTLSMembers_dropField (D : Deps) (cur r : TLS D) (o : Fields) (f : String)
    (h : decodeTLSMembers D cur o = some r) :
    decodeTLSMembers D cur (dropField TLS.jsonKeys f o) =
      some (TLS.omitField D f cur r) := by
  unfold decodeTLSMembers at h ⊢
  repeat' split at h
  all_goals first
    | contradiction
    | skip
  rename_i x0 r0 h0 x1 r1 h1
  have hr := Option.some.inj h
  subst hr
  simp only [decodeField_dropField _ _ _ _ _ f _ h0, decodeField_dropField _ _ _ _ _ f _ h1]
  rfl

theorem decodeRemoteMembers_dropField (D : Deps) (cur r : Remote D) (o : Fields) (f : String)
    (h : decodeRemoteMembers D cur o = some r) :
    decodeRemoteMembers D cur (dropField Remote.jsonKeys f o) =
      some (Remote.omitField D f cur r) := by
  unfold decodeRemoteMembers at h ⊢
  repeat' split at h
  all_goals first
    | contradiction
    | skip
  rename_i x0 r0 h0 x1 r1 h1
  have hr := Option.some.inj h
  subst hr
  simp only [decodeField_dropField _ _ _ _ _ f _ h0, decodeField_dropField _ _ _ _ _ f _ h1]
  rfl

theorem decodeLocalMembers_dropField (D : Deps) (cur r : Local D) (o : Fields) (f : String)
    (h : decodeLocalMembers D cur o = some r) :
    decodeLocalMembers D cur (dropField Local.jsonKeys f o) =
      some (Local.omitField D f cur r) := by
  unfold decodeLocalMembers at h ⊢
  repeat' split at h
  all_goals first
    | contradiction
    | skip
  rename_i x0 r0 h0 x1 r1 h1
  have hr := Option.some.inj h
  subst hr
  simp only [decodeField_dropField _ _ _ _ _ f _ h0, decodeField_dropField _ _ _ _ _ f _ h1]
  rfl

theorem decodeThanosDiscoveryMembers_dropField (D : Deps) (cur r : ThanosDiscovery D) (o : Fields) (f : String)
    (h : decodeThanosDiscoveryMembers D cur o = some r) :
    decodeThanosDiscoveryMembers D cur (dropField ThanosDiscovery.jsonKeys f o) =
      some (ThanosDiscovery.omitField D f cur r) := by
  unfold decodeThanosDiscoveryMembers at h ⊢
  repeat' split at h
  all_goals first
    | contradiction
    | skip
  rename_i x0 r0 h0
  have hr := Option.some.inj h
  subst hr
  simp only [decodeField_dropField _ _ _ _ _ f _ h0]
  rfl

theorem decodeTimeRangeMembers_dropField (cur r : TimeRange) (o : Fields) (f : String)
    (h : decodeTimeRangeMembers cur o = some r) :
    decodeTimeRangeMembers cur (dropField TimeRange.jsonKeys f o) =
      some (TimeRange.omitField f cur r) := by
  unfold decodeTimeRangeMembers at h ⊢
  repeat' split at h
  all_goals first
    | contradiction
    | skip
  rename_i x0 r0 h0 x1 r1 h1
  have hr := Option.some.inj h
  subst hr
  simp only [decodeField_dropField _ _ _ _ _ f _ h0, decodeField_dropField _ _ _ _ _ f _ h1]
  rfl

theorem decodeQueryMembers_dropField (D : Deps) (cur r : Query D) (o : Fields) (f : String)
    (h : decodeQueryMembers D cur o = some r) :
    decodeQueryMembers D cur (dropField (Query.fieldKeys D) f o) =
      some (Query.omitField D f cur r) := by
  unfold decodeQueryMembers at h ⊢
  repeat' split at h
  all_goals first
    | contradiction
    | skip
  rename_i x0 r0 h0 x1 r1 h1 x2 r2 h2 x3 r3 h3 x4 r4 h4 x5 r5 h5 x6 r6 h6 x7 r7 h7 x8 r8 h8 x9
    r9 h9 x10 r10 h10 x11 r11 h11 x12 r12 h12 x13 r13 h13 x14 r14 h14 x15 r15 h15 x16 r16 h16
    x17 r17 h17 x18 r18 h18 x19 r19 h19 x20 r20 h20
  have hr := Option.some.inj h
  subst hr
  simp only [decodeBaseObjectMembers_dropField D _ _ _ _ f h0,
    decodeField_dropField _ _ _ _ _ f _ h1, decodeField_dropField _ _ _ _ _ f _ h2,
    decodeField_dropField _ _ _ _ _ f _ h3, decodeField_dropField _ _ _ _ _ f _ h4,
    decodeField_dropField _ _ _ _ _ f _ h5, decodeField_dropField _ _ _ _ _ f _ h6,
    decodeField_dropField _ _ _ _ _ f _ h7, decodeField_dropField _ _ _ _ _ f _ h8,
    decodeField_dropField _ _ _ _ _ f _ h9, decodeField_dropField _ _ _ _ _ f _ h10,
    decodeField_dropField _ _ _ _ _ f _ h11, decodeField_dropField _ _ _ _ _ f _ h12,
    decodeField_dropField _ _ _ _ _ f _ h13, decodeField_dropField _ _ _ _ _ f _ h14,
    decodeField_dropField _ _ _ _ _ f _ h15, decodeField_dropField _ _ _ _ _ f _ h16,
    decodeField_dropField _ _ _ _ _ f _ h17, decodeField_dropField _ _ _ _ _ f _ h18,
    decodeField_dropField _ _ _ _ _ f _ h19, decodeField_dropField _ _ _ _ _ f _ h20]
  rfl

theorem decodeStoreGatewayMembers_dropField (D : Deps) (cur r : StoreGateway) (o : Fields) (f : String)
    (h : decodeStoreGatewayMembers D cur o = some r) :
    decodeStoreGatewayMembers D cur (dropField (StoreGateway.fieldKeys D) f o) =
      some (StoreGateway.omitField D f cur r) := by
  unfold decodeStoreGatewayMembers at h ⊢
  repeat' split at h
  all_goals first
    | contradiction
    | skip
  rename_i x0 r0 h0 x1 r1 h1 x2 r2 h2 x3 r3 h3 x4 r4 h4 x5 r5 h5 x6 r6 h6 x7 r7 h7 x8 r8 h8 x9
    r9 h9 x10 r10 h10 x11 r11 h11 x12 r12 h12 x13 r13 h13
  have hr := Option.some.inj h
  subst hr
  simp only [decodeBaseObjectMembers_dropField D _ _ _ _ f h0,
    decodeField_dropField _ _ _ _ _ f _ h1, decodeField_dropField _ _ _ _ _ f _ h2,
    decodeField_dropField _ _ _ _ _ f _ h3, decodeField_dropField _ _ _ _ _ f _ h4,
    decodeField_dropField _ _ _ _ _ f _ h5, decodeField_dropField _ _ _ _ _ f _ h6,
    decodeField_dropField _ _ _ _ _ f _ h7, decodeField_dropField _ _ _ _ _ f _ h8,
    decodeField_dropField _ _ _ _ _ f _ h9, decodeField_dropField _ _ _ _ _ f _ h10,
    decodeField_dropField _ _ _ _ _ f _ h11, decodeField_dropField _ _ _ _ _ f _ h12,
    decodeField_dropField _ _ _ _ _ f _ h13]
  rfl

theorem decodeRuleMembers_dropField (D : Deps) (cur r : Rule) (o : Fields) (f : String)
    (h : decodeRuleMembers D cur o = some r) :
    decodeRuleMembers D cur (dropField (Rule.fieldKeys D) f o) =
      some (Rule.omitField D f cur r) := by
  unfold decodeRuleMembers at h ⊢
  repeat' split at h
  all_goals first
    | contradiction
    | skip
  rename_i x0 r0 h0 x1 r1 h1 x2 r2 h2 x3 r3 h3 x4 r4 h4 x5 r5 h5 x6 r6 h6 x7 r7 h7 x8 r8 h8 x9
    r9 h9 x10 r10 h10 x11 r11 h11 x12 r12 h12 x13 r13 h13 x14 r14 h14 x15 r15 h15 x16 r16 h16
    x17 r17 h17 x18 r18 h18 x19 r19 h19 x20 r20 h20 x21 r21 h21 x22 r22 h22
  have hr := Option.some.inj h
  subst hr
  simp only [decodeBaseObjectMembers_dropField D _ _ _ _ f h0,
    decodeField_dropField _ _ _ _ _ f _ h1, decodeField_dropField _ _ _ _ _ f _ h2,
    decodeField_dropField _ _ _ _ _ f _ h3, decodeField_dropField _ _ _ _ _ f _ h4,
    decodeField_dropField _ _ _ _ _ f _ h5, decodeField_dropField _ _ _ _ _ f _ h6,
    decodeField_dropField _ _ _ _ _ f _ h7, decodeField_dropField _ _ _ _ _ f _ h8,
    decodeField_dropField _ _ _ _ _ f _ h9, decodeField_dropField _ _ _ _ _ f _ h10,
    decodeField_dropField _ _ _ _ _ f _ h11, decodeField_dropField _ _ _ _ _ f _ h12,
    decodeField_dropField _ _ _ _ _ f _ h13, decodeField_dropField _ _ _ _ _ f _ h14,
    decodeField_dropField _ _ _ _ _ f _ h15, decodeField_dropField _ _ _ _ _ f _ h16,
    decodeField_dropField _ _ _ _ _ f _ h17, decodeField_dropField _ _ _ _ _ f _ h18,
    decodeField_dropField _ _ _ _ _ f _ h19, decodeField_dropField _ _ _ _ _ f _ h20,
    decodeField_dropField _ _ _ _ _ f _ h21, decodeField_dropField _ _ _ _ _ f _ h22]
  rfl

theorem decodeThanosSpecMembers_dropField (D : Deps) (cur r : ThanosSpec D) (o : Fields) (f : String)
    (h : decodeThanosSpecMembers D cur o = some r) :
    decodeThanosSpecMembers D cur (dropField ThanosSpec.jsonKeys f o) =
      some (ThanosSpec.omitField D f cur r) := by
  unfold decodeThanosSpecMembers at h ⊢
  repeat' split at h
  all_goals first
    | contradiction
    | skip
  rename_i x0 r0 h0 x1 r1 h1 x2 r2 h2 x3 r3 h3 x4 r4 h4 x5 r5 h5 x6 r6 h6
  have hr := Option.some.inj h
  subst hr
  simp only [decodeField_dropField _ _ _ _ _ f _ h0, decodeField_dropField _ _ _ _ _ f _ h1,
    decodeField_dropField _ _ _ _ _ f _ h2, decodeField_dropField _ _ _ _ _ f _ h3,
    decodeField_dropField _ _ _ _ _ f _ h4, decodeField_dropField _ _ _ _ _ f _ h5,
    decodeField_dropField _ _ _ _ _ f _ h6]
  rfl

/-- Each field of a `ImageSpec` is at its zero value once it is omitted. -/
theorem imageSpec_omitField_zero (D : Deps) (r : ImageSpec) :
    (ImageSpec.omitField D D.repositoryKey ImageSpec.zero r).Repository = ImageSpec.zero.Repository ∧
      (ImageSpec.omitField D D.tagKey ImageSpec.zero r).Tag = ImageSpec.zero.Tag ∧
      (ImageSpec.omitField D D.pullPolicyKey ImageSpec.zero r).PullPolicy = ImageSpec.zero.PullPolicy := by
  simp [ImageSpec.omitField, ImageSpec.zero]

/-- Each field of a `TLS` is at its zero value once it is omitted. -/
theorem tls_omitField_zero (D : Deps) (r : TLS D) :
    (TLS.omitField D "managedTLS" (TLS.zero D) r).Managed = (TLS.zero D).Managed ∧
      (TLS.omitField D "certificate" (TLS.zero D) r).Certificate = (TLS.zero D).Certificate := by
  simp [TLS.omitField, TLS.zero]

/-- Each field of a `Remote` is at its zero value once it is omitted. -/
theorem remote_omitField_zero (D : Deps) (r : Remote D) :
    (Remote.omitField D "urls" (Remote.zero D) r).URLs = (Remote.zero D).URLs ∧
      (Remote.omitField D "tls" (Remote.zero D) r).TLS = (Remote.zero D).TLS := by
  simp [Remote.omitField, Remote.zero]

/-- Each field of a `Local` is at its zero value once it is omitted. -/
theorem local_omitField_zero (D : Deps) (r : Local D) :
    (Local.omitField D "urls" (Local.zero D) r).URLs = (Local.zero D).URLs ∧
      (Local.omitField D "tls" (Local.zero D) r).TLS = (Local.zero D).TLS := by
  simp [Local.omitField, Local.zero]

/-- Each field of a `ThanosDiscovery` is at its zero value once it is omitted. -/
theorem thanosDiscovery_omitField_zero (D : Deps) (r : ThanosDiscovery D) :
    (ThanosDiscovery.omitField D "labelSelector" (ThanosDiscovery.zero D) r).LabelSelector = (ThanosDiscovery.zero D).LabelSelector := by
  simp [ThanosDiscovery.omitField, ThanosDiscovery.zero]

/-- Each field of a `TimeRange` is at its zero value once it is omitted. -/
theorem timeRange_omitField_zero (r : TimeRange) :
    (TimeRange.omitField "minTime" TimeRange.zero r).MinTime = TimeRange.zero.MinTime ∧
      (TimeRange.omitField "maxTime" TimeRange.zero r).MaxTime = TimeRange.zero.MaxTime := by
  simp [TimeRange.omitField, TimeRange.zero]

/-- Each field of a `Query` is at its zero value once it is omitted. -/
theorem query_omitField_zero (D : Deps) (r : Query D) :
    (Query.omitField D D.imageKey (Query.zero D) r).BaseObject.Image = ImageSpec.zero ∧
      (Query.omitField D "logLevel" (Query.zero D) r).LogLevel = (Query.zero D).LogLevel ∧
      (Query.omitField D "logFormat" (Query.zero D) r).LogFormat = (Query.zero D).LogFormat ∧
      (Query.omitField D "httpAddress" (Query.zero D) r).HttpAddress = (Query.zero D).HttpAddress ∧
      (Query.omitField D "http_grace_period" (Query.zero D) r).HttpGracePeriod = (Query.zero D).HttpGracePeriod ∧
      (Query.omitField D "grpcAddress" (Query.zero D) r).GRPCAddress = (Query.zero D).GRPCAddress ∧
      (Query.omitField D "grpcGracePeriod" (Query.zero D) r).GRPCGracePeriod = (Query.zero D).GRPCGracePeriod ∧
      (Query.omitField D "webRoutePrefix" (Query.zero D) r).WebRoutePrefix = (Query.zero D).WebRoutePrefix ∧
      (Query.omitField D "webExternalPrefix" (Query.zero D) r).WebExternalPrefix = (Query.zero D).WebExternalPrefix ∧
      (Query.omitField D "webPrefixHeader" (Query.zero D) r).WebPrefixHeader = (Query.zero D).WebPrefixHeader ∧
      (Query.omitField D "queryTimeout" (Query.zero D) r).QueryTimeout = (Query.zero D).QueryTimeout ∧
      (Query.omitField D "queryMaxConcurrent" (Query.zero D) r).QueryMaxConcurrent = (Query.zero D).QueryMaxConcurrent ∧
      (Query.omitField D "queryReplicaLabel" (Query.zero D) r).QueryReplicaLabels = (Query.zero D).QueryReplicaLabels ∧
      (Query.omitField D "selectorLabels" (Query.zero D) r).SelectorLabels = (Query.zero D).SelectorLabels ∧
      (Query.omitField D "stores" (Query.zero D) r).Stores = (Query.zero D).Stores ∧
      (Query.omitField D "storeSDDNSInterval" (Query.zero D) r).StoreSDDNSInterval = (Query.zero D).StoreSDDNSInterval ∧
      (Query.omitField D "storeUnhealthyTimeout" (Query.zero D) r).StoreUnhealthyTimeout = (Query.zero D).StoreUnhealthyTimeout ∧
      (Query.omitField D "queryAutoDownsampling" (Query.zero D) r).QueryAutoDownsampling = (Query.zero D).QueryAutoDownsampling ∧
      (Query.omitField D "queryPartialResponse" (Query.zero D) r).QueryPartialResponse = (Query.zero D).QueryPartialResponse ∧
      (Query.omitField D "queryDefaultEvaluationInterval" (Query.zero D) r).QueryDefaultEvaluationInterval = (Query.zero D).QueryDefaultEvaluationInterval ∧
      (Query.omitField D "storeResponseTimeout" (Query.zero D) r).StoreResponseTimeout = (Query.zero D).StoreResponseTimeout := by
  simp [Query.omitField, BaseObject.omitField, BaseObject.zero, Query.zero]

/-- Each field of a `StoreGateway` is at its zero value once it is omitted. -/
theorem storeGateway_omitField_zero (D : Deps) (r : StoreGateway) :
    (StoreGateway.omitField D D.imageKey StoreGateway.zero r).BaseObject.Image = ImageSpec.zero ∧
      (StoreGateway.omitField D "logLevel" StoreGateway.zero r).LogLevel = StoreGateway.zero.LogLevel ∧
      (StoreGateway.omitField D "logFormat" StoreGateway.zero r).LogFormat = StoreGateway.zero.LogFormat ∧
      (StoreGateway.omitField D "httpAddress" StoreGateway.zero r).HttpAddress = StoreGateway.zero.HttpAddress ∧
      (StoreGateway.omitField D "http_grace_period" StoreGateway.zero r).HttpGracePeriod = StoreGateway.zero.HttpGracePeriod ∧
      (StoreGateway.omitField D "grpcAddress" StoreGateway.zero r).GRPCAddress = StoreGateway.zero.GRPCAddress ∧
      (StoreGateway.omitField D "grpcGracePeriod" StoreGateway.zero r).GRPCGracePeriod = StoreGateway.zero.GRPCGracePeriod ∧
      (StoreGateway.omitField D "indexCacheSize" StoreGateway.zero r).IndexCacheSize = StoreGateway.zero.IndexCacheSize ∧
      (StoreGateway.omitField D "chunkPoolSize" StoreGateway.zero r).ChunkPoolSize = StoreGateway.zero.ChunkPoolSize ∧
      (StoreGateway.omitField D "storeGRPCSeriesSampleLimit" StoreGateway.zero r).StoreGRPCSeriesSampleLimit = StoreGateway.zero.StoreGRPCSeriesSampleLimit ∧
      (StoreGateway.omitField D "storeGRPCSeriesMaxConcurrency" StoreGateway.zero r).StoreGRPCSeriesMaxConcurrency = StoreGateway.zero.StoreGRPCSeriesMaxConcurrency ∧
      (StoreGateway.omitField D "syncBlockDuration" StoreGateway.zero r).SyncBlockDuration = StoreGateway.zero.SyncBlockDuration ∧
      (StoreGateway.omitField D "blockSyncConcurrency" StoreGateway.zero r).BlockSyncConcurrency = StoreGateway.zero.BlockSyncConcurrency ∧
      (StoreGateway.omitField D "timeRanges" StoreGateway.zero r).TimeRanges = StoreGateway.zero.TimeRanges := by
  simp [StoreGateway.omitField, BaseObject.omitField, BaseObject.zero, StoreGateway.zero]

/-- Each field of a `Rule` is at its zero value once it is omitted. -/
theorem rule_omitField_zero (D : Deps) (r : Rule) :
    (Rule.omitField D D.imageKey Rule.zero r).BaseObject.Image = ImageSpec.zero ∧
      (Rule.omitField D "logLevel" Rule.zero r).LogLevel = Rule.zero.LogLevel ∧
      (Rule.omitField D "logFormat" Rule.zero r).LogFormat = Rule.zero.LogFormat ∧
      (Rule.omitField D "httpAddress" Rule.zero r).HttpAddress = Rule.zero.HttpAddress ∧
      (Rule.omitField D "http_grace_period" Rule.zero r).HttpGracePeriod = Rule.zero.HttpGracePeriod ∧
      (Rule.omitField D "grpcAddress" Rule.zero r).GRPCAddress = Rule.zero.GRPCAddress ∧
      (Rule.omitField D "grpcGracePeriod" Rule.zero r).GRPCGracePeriod = Rule.zero.GRPCGracePeriod ∧
      (Rule.omitField D "labels" Rule.zero r).Labels = Rule.zero.Labels ∧
      (Rule.omitField D "rules" Rule.zero r).Rules = Rule.zero.Rules ∧
      (Rule.omitField D "resendDelay" Rule.zero r).ResendDelay = Rule.zero.ResendDelay ∧
      (Rule.omitField D "evalInterval" Rule.zero r).EvalInterval = Rule.zero.EvalInterval ∧
      (Rule.omitField D "tsdbBlockDuration" Rule.zero r).TSDBBlockDuration = Rule.zero.TSDBBlockDuration ∧
      (Rule.omitField D "tsdbRetention" Rule.zero r).TSDBRetention = Rule.zero.TSDBRetention ∧
      (Rule.omitField D "alertmanagersURLs" Rule.zero r).AlertmanagersURLs = Rule.zero.AlertmanagersURLs ∧
      (Rule.omitField D "alertmanagersSendTimeout" Rule.zero r).AlertmanagersSendTimeout = Rule.zero.AlertmanagersSendTimeout ∧
      (Rule.omitField D "alertmanagersSDDNSInterval" Rule.zero r).AlertmanagersSDDNSInterval = Rule.zero.AlertmanagersSDDNSInterval ∧
      (Rule.omitField D "alertQueryUrl" Rule.zero r).AlertQueryURL = Rule.zero.AlertQueryURL ∧
      (Rule.omitField D "alertLabelDrop" Rule.zero r).AlertLabelDrop = Rule.zero.AlertLabelDrop ∧
      (Rule.omitField D "webRoutePrefix" Rule.zero r).WebRoutePrefix = Rule.zero.WebRoutePrefix ∧
      (Rule.omitField D "webExternalPrefix" Rule.zero r).WebExternalPrefix = Rule.zero.WebExternalPrefix ∧
      (Rule.omitField D "webPrefixHeader" Rule.zero r).WebPrefixHeader = Rule.zero.WebPrefixHeader ∧
      (Rule.omitField D "queries" Rule.zero r).Queries = Rule.zero.Queries ∧
      (Rule.omitField D "querySddnsInterval" Rule.zero r).QuerySDDNSInterval = Rule.zero.QuerySDDNSInterval := by
  simp [Rule.omitField, BaseObject.omitField, BaseObject.zero, Rule.zero]

/-- Each field of a `ThanosSpec` is at its zero value once it is omitted. -/
theorem thanosSpec_omitField_zero (D : Deps) (r : ThanosSpec D) :
    (ThanosSpec.omitField D "remote" (ThanosSpec.zero D) r).Remote = (ThanosSpec.zero D).Remote ∧
      (ThanosSpec.omitField D "thanosDiscovery" (ThanosSpec.zero D) r).ThanosDiscovery = (ThanosSpec.zero D).ThanosDiscovery ∧
      (ThanosSpec.omitField D "local" (ThanosSpec.zero D) r).Local = (ThanosSpec.zero D).Local ∧
      (ThanosSpec.omitField D "storeGateway" (ThanosSpec.zero D) r).StoreGateway = (ThanosSpec.zero D).StoreGateway ∧
      (ThanosSpec.omitField D "rule" (ThanosSpec.zero D) r).Rule = (ThanosSpec.zero D).Rule ∧
      (ThanosSpec.omitField D "object_store" (ThanosSpec.zero D) r).ObjectStore = (ThanosSpec.zero D).ObjectStore ∧
      (ThanosSpec.omitField D "query" (ThanosSpec.zero D) r).Query = (ThanosSpec.zero D).Query := by
  simp [ThanosSpec.omitField, ThanosSpec.zero]

theorem omissionSafe_of_dropField {α : Type} (keys : List String) (decode : Json → Option α)
    (without : String → α → α) (zero : α) (h0 : decode (.obj []) = some zero)
    (h : ∀ (o : Fields) (f : String) (r : α), decode (.obj o) = some r →
      decode (.obj (dropField keys f o)) = some (without f r)) :
    OmissionSafe keys decode without zero := by
  refine ⟨h0, h, ?_⟩
  intro o f r hf hr
  have h1 := h o f r hr
  rw [dropField_eq_self _ _ _ hf] at h1
  exact Option.some.inj (h1.symm.trans hr)

/-! ## Keys that repeat or differ by case -/

/-- A key that differs from the key of a field by case only is decoded into the field. -/
theorem decodeThanosSpec_caseVariant :
    decodeThanosSpec Deps.sample (.obj [("Remote", .obj [])]) =
      some { ThanosSpec.zero Deps.sample with Remote := some (Remote.zero Deps.sample) } := rfl

/-- A key is matched exactly before it is matched under folding, and under folding the first
field in declaration order is taken; a key that matches no field resolves to none. -/
theorem resolveKey_exact_before_folded :
    resolveKey ["Rule", "rule"] "rule" = some "rule" ∧
      resolveKey ["Rule", "rule"] "RULE" = some "Rule" ∧
      resolveKey ThanosSpec.jsonKeys "OBJECT_STORE" = some "object_store" ∧
      resolveKey ThanosSpec.jsonKeys "objectStore" = none := by
  decide

/-- Of the members that repeat a key the last one that is not `null` sets the field. -/
theorem decodeThanosSpec_last_wins :
    decodeThanosSpec Deps.sample
        (.obj [("object_store", .str "a"), ("object_store", .str "b"),
          ("object_store", .null)]) =
      some { ThanosSpec.zero Deps.sample with ObjectStore := "b" } := rfl

/-- A member of the wrong type fails the decoding, whether it comes first or last under its key. -/
theorem decodeThanosSpec_illTyped_duplicate :
    decodeThanosSpec Deps.sample (.obj [("object_store", .str "a"), ("object_store", .num 1)]) =
      none ∧
    decodeThanosSpec Deps.sample (.obj [("object_store", .num 1), ("object_store", .str "a")]) =
      none := ⟨rfl, rfl⟩

/-- A second object under the key of a pointer field is decoded into the record the first has
left. -/
theorem decodeThanosSpec_duplicate_merges :
    decodeThanosSpec Deps.sample
        (.obj [("query", .obj [("logLevel", .str "debug")]),
          ("query", .obj [("logFormat", .str "json")])]) =
      some { ThanosSpec.zero Deps.sample with
        Query := some { Query.zero Deps.sample with LogLevel := "debug", LogFormat := "json" } } :=
  rfl

/-! ## The keys an encoding has -/

theorem keysOf_jsonField_append (k : String) (o e : Bool) (v : Json) (rest : Fields) :
    keysOf (jsonField k o e v ++ rest) =
      if (o && e) = true then keysOf rest else k :: keysOf rest := by
  unfold jsonField
  by_cases h : (o && e) = true
  · simp [h]
  · simp [h, keysOf]

theorem keysOf_jsonField (k : String) (o e : Bool) (v : Json) :
    keysOf (jsonField k o e v) = if (o && e) = true then [] else [k] := by
  have h := keysOf_jsonField_append k o e v []
  simpa [keysOf] using h

theorem keysOf_sublist_step (k : String) (o e : Bool) (v : Json) (rest : Fields)
    (ks : List String) (h : (keysOf rest).Sublist ks) :
    (keysOf (jsonField k o e v ++ rest)).Sublist (k :: ks) := by
  rw [keysOf_jsonField_append]
  by_cases hc : (o && e) = true
  · simpa [hc] using List.Sublist.cons k h
  · simpa [hc] using h

theorem keysOf_sublist_last (k : String) (o e : Bool) (v : Json) :
    (keysOf (jsonField k o e v)).Sublist [k] := by
  rw [keysOf_jsonField]
  by_cases hc : (o && e) = true
  · simp [hc]
  · simp [hc]

theorem thanosSpec_keys_sublist {D : Deps} (s : ThanosSpec D) :
    (encodeThanosSpec s).keys.Sublist ThanosSpec.jsonKeys := by
  simp only [encodeThanosSpec, Json.keys, ThanosSpec.fields, ptrField, stringField,
    List.append_assoc, ThanosSpec.jsonKeys]
  repeat (first | exact keysOf_sublist_last _ _ _ _ | apply keysOf_sublist_step)

theorem query_keys_sublist {D : Deps} (q : Query D) :
    (encodeQuery q).keys.Sublist (D.imageKey :: Query.jsonKeys) := by
  simp only [encodeQuery, Json.keys, Query.fields, BaseObject.fields, structField, stringField,
    intField, boolField, stringsField, mapField, List.append_assoc, Query.jsonKeys]
  repeat (first | exact keysOf_sublist_last _ _ _ _ | apply keysOf_sublist_step)

theorem storeGateway_keys_sublist (D : Deps) (g : StoreGateway) :
    (encodeStoreGateway D g).keys.Sublist (D.imageKey :: StoreGateway.jsonKeys) := by
  simp only [encodeStoreGateway, Json.keys, StoreGateway.fields, BaseObject.fields, structField,
    stringField, intField, timeRangesField, List.append_assoc, StoreGateway.jsonKeys]
  repeat (first | exact keysOf_sublist_last _ _ _ _ | apply keysOf_sublist_step)

theorem rule_keys_sublist (D : Deps) (r : Rule) :
    (encodeRule D r).keys.Sublist (D.imageKey :: Rule.jsonKeys) := by
  simp only [encodeRule, Json.keys, Rule.fields, BaseObject.fields, structField, stringField,
    stringsField, mapField, List.append_assoc, Rule.jsonKeys]
  repeat (first | exact keysOf_sublist_last _ _ _ _ | apply keysOf_sublist_step)

theorem tls_keys {D : Deps} (t : TLS D) : (encodeTLS t).keys = TLS.jsonKeys := by
  simp [encodeTLS, Json.keys, TLS.fields, structField, keysOf_jsonField_append,
    keysOf_jsonField, TLS.jsonKeys]

theorem remote_keys {D : Deps} (r : Remote D) : (encodeRemote r).keys = Remote.jsonKeys := by
  simp [encodeRemote, Json.keys, Remote.fields, structField, stringsField,
    keysOf_jsonField_append, keysOf_jsonField, Remote.jsonKeys]

theorem local_keys {D : Deps} (l : Local D) : (encodeLocal l).keys = Local.jsonKeys := by
  simp [encodeLocal, Json.keys, Local.fields, structField, stringsField,
    keysOf_jsonField_append, keysOf_jsonField, Local.jsonKeys]

theorem thanosDiscovery_keys {D : Deps} (t : ThanosDiscovery D) :
    (encodeThanosDiscovery t).keys = ThanosDiscovery.jsonKeys := by
  simp [encodeThanosDiscovery, Json.keys, ThanosDiscovery.fields, structField,
    keysOf_jsonField, ThanosDiscovery.jsonKeys]

theorem timeRange_keys_sublist (t : TimeRange) :
    (encodeTimeRange t).keys.Sublist TimeRange.jsonKeys := by
  simp only [encodeTimeRange, Json.keys, TimeRange.fields, stringField, TimeRange.jsonKeys]
  repeat (first | exact keysOf_sublist_last _ _ _ _ | apply keysOf_sublist_step)

theorem mem_keysOf_jsonField_append (k k' : String) (o e : Bool) (v : Json) (rest : Fields) :
    k ∈ keysOf (jsonField k' o e v ++ rest) ↔
      (k = k' ∧ (o && e) = false) ∨ k ∈ keysOf rest := by
  rw [keysOf_jsonField_append]
  by_cases hc : (o && e) = true
  · simp [hc]
  · simp [hc]

theorem mem_keysOf_jsonField (k k' : String) (o e : Bool) (v : Json) :
    k ∈ keysOf (jsonField k' o e v) ↔ (k = k' ∧ (o && e) = false) := by
  rw [keysOf_jsonField]
  by_cases hc : (o && e) = true
  · simp [hc]
  · simp [hc]

theorem thanosSpec_keys_nodup {D : Deps} (s : ThanosSpec D) :
    (encodeThanosSpec s).keys.Nodup :=
  List.Nodup.sublist (thanosSpec_keys_sublist s) (by decide)

theorem query_keys_nodup {D : Deps} (q : Query D) (h : D.imageKey ∉ Query.jsonKeys) :
    (encodeQuery q).keys.Nodup :=
  List.Nodup.sublist (query_keys_sublist q) (List.nodup_cons.mpr ⟨h, by decide⟩)

/-! ## The concrete inputs satisfy the conditions -/

theorem sample_imageSpecKeysDistinct : Deps.sample.imageSpecKeysDistinct := by
  show ["repository", "tag", "pullPolicy"].Nodup
  decide

theorem sample_imageKeyFree : Deps.sample.imageKeyFree := by
  refine ⟨?_, ?_, ?_⟩
  · show "image" ∉ Query.jsonKeys
    decide
  · show "image" ∉ StoreGateway.jsonKeys
    decide
  · show "image" ∉ Rule.jsonKeys
    decide

theorem populatedSpec_restorable : populatedSpec.Restorable where
  remoteCertificate := by
    intro r hr
    rfl
  labelSelector := by
    intro t ht
    rfl
  localCertificate := by
    intro l hl
    rfl
  storeGateway := by
    intro g hg
    have h : g = { StoreGateway.zero with
        IndexCacheSize := "250MB"
        BlockSyncConcurrency := ⟨20, by decide⟩
        TimeRanges := some [{ MinTime := "-2w", MaxTime := "" }] } :=
      (Option.some.inj hg).symm
    subst h
    exact ⟨by simp⟩
  rule := by
    intro r hr
    have h : r = { Rule.zero with Queries := some [] } := (Option.some.inj hr).symm
    subst h
    exact ⟨by simp [Rule.zero], by simp [Rule.zero], by simp [Rule.zero]⟩
  query := by
    intro q hq
    have h : q = { DefaultQuery Deps.sample with
        QueryTimeout := (300000000000 : Int)
        QueryReplicaLabels := some ⟨[("replica", "a")], by decide⟩
        Stores := some ["dnssrv+store"]
        QueryAutoDownsampling := true } := (Option.some.inj hq).symm
    subst h
    exact ⟨by simp, by simp [DefaultQuery, Query.zero], by simp, rfl, rfl, rfl, rfl, rfl⟩

/-! ## The claims -/

/-- C1: the pull policy of the default Query value is the constant `defaultPullPolicy`, whose
value is the string "pIfNotPresent"; it is not the Kubernetes pull policy "IfNotPresent". -/
theorem defaultQuery_pullPolicy (D : Deps) :
    (DefaultQuery D).BaseObject.Image.PullPolicy = defaultPullPolicy ∧
      (DefaultQuery D).BaseObject.Image.PullPolicy = "pIfNotPresent" ∧
      (DefaultQuery D).BaseObject.Image.PullPolicy ≠ pullIfNotPresent ∧
      pullIfNotPresent = "IfNotPresent" := by
  refine ⟨rfl, rfl, ?_, rfl⟩
  show "pIfNotPresent" ≠ "IfNotPresent"
  decide

/-- C2: the image of the default Query value is quay.io/thanos/thanos:v0.9.0, as repository,
tag, and the two joined by a colon. -/
theorem defaultQuery_image (D : Deps) :
    (DefaultQuery D).BaseObject.Image.Repository = "quay.io/thanos/thanos" ∧
      (DefaultQuery D).BaseObject.Image.Tag = "v0.9.0" ∧
      (DefaultQuery D).BaseObject.Image.Repository ++ ":" ++
        (DefaultQuery D).BaseObject.Image.Tag = "quay.io/thanos/thanos:v0.9.0" := by
  refine ⟨rfl, rfl, ?_⟩
  show "quay.io/thanos/thanos" ++ ":" ++ "v0.9.0" = "quay.io/thanos/thanos:v0.9.0"
  decide

/-- C3: the default Query value has log level "info", HTTP address "0.0.0.0:10902" and gRPC
address "0.0.0.0:10901": the same host 0.0.0.0 with the distinct ports 10902 and 10901. -/
theorem defaultQuery_logLevel_addresses (D : Deps) :
    (DefaultQuery D).LogLevel = "info" ∧
      (DefaultQuery D).HttpAddress = "0.0.0.0:10902" ∧
      (DefaultQuery D).GRPCAddress = "0.0.0.0:10901" ∧
      (DefaultQuery D).HttpAddress = "0.0.0.0" ++ ":" ++ "10902" ∧
      (DefaultQuery D).GRPCAddress = "0.0.0.0" ++ ":" ++ "10901" ∧
      "10902" ≠ "10901" := by
  refine ⟨rfl, rfl, rfl, ?_, ?_, ?_⟩
  · show "0.0.0.0:10902" = "0.0.0.0" ++ ":" ++ "10902"
    decide
  · show "0.0.0.0:10901" = "0.0.0.0" ++ ":" ++ "10901"
    decide
  · decide

/-- C4, as stated, fails: the spec whose Query has an empty slice of stores that is not nil
encodes without the key `stores`, and decodes to the spec whose slice of stores is nil. -/
theorem emptyStoresSpec_not_restored :
    decodeThanosSpec Deps.sample (encodeThanosSpec emptyStoresSpec) = some nilStoresSpec ∧
      nilStoresSpec ≠ emptyStoresSpec ∧
      decodeThanosSpec Deps.sample (encodeThanosSpec emptyStoresSpec) ≠ some emptyStoresSpec := by
  have h1 : decodeThanosSpec Deps.sample (encodeThanosSpec emptyStoresSpec) =
      some nilStoresSpec := by
    rfl
  have h2 : nilStoresSpec ≠ emptyStoresSpec := by
    intro h
    have h3 := congrArg (fun s => s.Query.map (fun q => q.Stores)) h
    simp [nilStoresSpec, emptyStoresSpec, Query.zero] at h3
  refine ⟨h1, h2, ?_⟩
  rw [h1]
  intro h
  exact h2 (Option.some.inj h)

/-- C4, amended: when the keys of `ImageSpec` are distinct, the key of `BaseObject.Image` is none
of the keys of the embedding records, and the spec is restorable (no slice or map tagged
`omitempty` is empty without being nil, and the values of external types come back from their
own encoding), encoding the spec and decoding the result yields the spec. -/
theorem decodeThanosSpec_encodeThanosSpec (D : Deps) (s : ThanosSpec D)
    (hi : D.imageSpecKeysDistinct) (hf : D.imageKeyFree) (hs : s.Restorable) :
    decodeThanosSpec D (encodeThanosSpec s) = some s := by
  have p1 := decodeAllInto_ptr ((true && s.Remote.isNone) = true) encodeRemote
    (decodeRemoteInto D) (Remote.zero D) s.Remote
    (fun h => by simpa using h)
    (fun r hr => decodePtrInto_obj (decodeRemoteInto D) (Remote.zero D) r.fields r
      (decodeRemote_encodeRemote D r (hs.remoteCertificate r hr)))
  have p2 := decodeAllInto_ptr ((true && s.ThanosDiscovery.isNone) = true)
    encodeThanosDiscovery (decodeThanosDiscoveryInto D) (ThanosDiscovery.zero D)
    s.ThanosDiscovery
    (fun h => by simpa using h)
    (fun t ht => decodePtrInto_obj (decodeThanosDiscoveryInto D) (ThanosDiscovery.zero D)
      t.fields t (decodeThanosDiscovery_encodeThanosDiscovery D t (hs.labelSelector t ht)))
  have p3 := decodeAllInto_ptr ((true && s.Local.isNone) = true) encodeLocal
    (decodeLocalInto D) (Local.zero D) s.Local
    (fun h => by simpa using h)
    (fun l hl => decodePtrInto_obj (decodeLocalInto D) (Local.zero D) l.fields l
      (decodeLocal_encodeLocal D l (hs.localCertificate l hl)))
  have p4 := decodeAllInto_ptr ((true && s.StoreGateway.isNone) = true)
    (encodeStoreGateway D) (decodeStoreGatewayInto D) StoreGateway.zero s.StoreGateway
    (fun h => by simpa using h)
    (fun g hg => decodePtrInto_obj (decodeStoreGatewayInto D) StoreGateway.zero (g.fields D) g
      (decodeStoreGateway_encodeStoreGateway D g hi hf (hs.storeGateway g hg)))
  have p5 := decodeAllInto_ptr ((true && s.Rule.isNone) = true) (encodeRule D)
    (decodeRuleInto D) Rule.zero s.Rule
    (fun h => by simpa using h)
    (fun r hr => decodePtrInto_obj (decodeRuleInto D) Rule.zero (r.fields D) r
      (decodeRule_encodeRule D r hi hf (hs.rule r hr)))
  have p6 := decodeAllInto_ptr ((true && s.Query.isNone) = true) encodeQuery
    (decodeQueryInto D) (Query.zero D) s.Query
    (fun h => by simpa using h)
    (fun q hq => decodePtrInto_obj (decodeQueryInto D) (Query.zero D) q.fields q
      (decodeQuery_encodeQuery D q hi hf (hs.query q hq)))
  have r1 : resolveKey ThanosSpec.jsonKeys "remote" = some "remote" := rfl
  have r2 : resolveKey ThanosSpec.jsonKeys "thanosDiscovery" = some "thanosDiscovery" := rfl
  have r3 : resolveKey ThanosSpec.jsonKeys "local" = some "local" := rfl
  have r4 : resolveKey ThanosSpec.jsonKeys "storeGateway" = some "storeGateway" := rfl
  have r5 : resolveKey ThanosSpec.jsonKeys "rule" = some "rule" := rfl
  have r6 : resolveKey ThanosSpec.jsonKeys "object_store" = some "object_store" := rfl
  have r7 : resolveKey ThanosSpec.jsonKeys "query" = some "query" := rfl
  simp [decodeThanosSpec, decodeThanosSpecInto, encodeThanosSpec, decodeThanosSpecMembers,
    decodeField, ThanosSpec.fields, ThanosSpec.zero, ptrField, stringField,
    membersOf_jsonField_append, membersOf_jsonField, r1, r2, r3, r4, r5, r6, r7,
    decodeAllInto_string, p1, p2, p3, p4, p5, p6]

/-- The amended round trip holds of `populatedSpec`, whose conditions are met. -/
theorem decodeThanosSpec_encodeThanosSpec_witness :
    Deps.sample.imageSpecKeysDistinct ∧ Deps.sample.imageKeyFree ∧ populatedSpec.Restorable ∧
      decodeThanosSpec Deps.sample (encodeThanosSpec populatedSpec) = some populatedSpec :=
  ⟨sample_imageSpecKeysDistinct, sample_imageKeyFree, populatedSpec_restorable,
    decodeThanosSpec_encodeThanosSpec Deps.sample populatedSpec sample_imageSpecKeysDistinct
      sample_imageKeyFree populatedSpec_restorable⟩

/-- C5: omitting a field never makes decoding fail and leaves the field at its zero value.  For
each of the ten records: the empty object decodes to the zero value; when an object decodes,
the object without the members of any one field decodes too, to the same record with that field
at its zero value; and a field that no member resolves to is at its zero value in the result.
In particular the sub-specs of a decoded ThanosSpec whose keys are absent are nil and its
ObjectStore is the empty string, and the empty object decodes into the zero ThanosSpec, Query,
StoreGateway and Rule. -/
theorem decode_omitted_fields (D : Deps) :
    OmissionSafe ThanosSpec.jsonKeys (decodeThanosSpec D)
        (fun f r => ThanosSpec.omitField D f (ThanosSpec.zero D) r) (ThanosSpec.zero D) ∧
      OmissionSafe (Query.fieldKeys D) (decodeQuery D)
        (fun f r => Query.omitField D f (Query.zero D) r) (Query.zero D) ∧
      OmissionSafe (StoreGateway.fieldKeys D) (decodeStoreGateway D)
        (fun f r => StoreGateway.omitField D f StoreGateway.zero r) StoreGateway.zero ∧
      OmissionSafe (Rule.fieldKeys D) (decodeRule D)
        (fun f r => Rule.omitField D f Rule.zero r) Rule.zero ∧
      OmissionSafe Remote.jsonKeys (decodeRemote D)
        (fun f r => Remote.omitField D f (Remote.zero D) r) (Remote.zero D) ∧
      OmissionSafe Local.jsonKeys (decodeLocal D)
        (fun f r => Local.omitField D f (Local.zero D) r) (Local.zero D) ∧
      OmissionSafe TLS.jsonKeys (decodeTLS D)
        (fun f r => TLS.omitField D f (TLS.zero D) r) (TLS.zero D) ∧
      OmissionSafe ThanosDiscovery.jsonKeys (decodeThanosDiscovery D)
        (fun f r => ThanosDiscovery.omitField D f (ThanosDiscovery.zero D) r)
        (ThanosDiscovery.zero D) ∧
      OmissionSafe TimeRange.jsonKeys decodeTimeRange
        (fun f r => TimeRange.omitField f TimeRange.zero r) TimeRange.zero ∧
      OmissionSafe (ImageSpec.fieldKeys D) (decodeImageSpec D)
        (fun f r => ImageSpec.omitField D f ImageSpec.zero r) ImageSpec.zero ∧
      (∀ (o : Fields) (s : ThanosSpec D), decodeThanosSpec D (.obj o) = some s →
        (membersOf ThanosSpec.jsonKeys "remote" o = [] → s.Remote = none) ∧
        (membersOf ThanosSpec.jsonKeys "thanosDiscovery" o = [] → s.ThanosDiscovery = none) ∧
        (membersOf ThanosSpec.jsonKeys "local" o = [] → s.Local = none) ∧
        (membersOf ThanosSpec.jsonKeys "storeGateway" o = [] → s.StoreGateway = none) ∧
        (membersOf ThanosSpec.jsonKeys "rule" o = [] → s.Rule = none) ∧
        (membersOf ThanosSpec.jsonKeys "object_store" o = [] → s.ObjectStore = "") ∧
        (membersOf ThanosSpec.jsonKeys "query" o = [] → s.Query = none)) ∧
      decodeThanosSpec D (.obj []) = some (ThanosSpec.zero D) ∧
      (ThanosSpec.zero D).Remote = none ∧
      (ThanosSpec.zero D).ThanosDiscovery = none ∧
      (ThanosSpec.zero D).Local = none ∧
      (ThanosSpec.zero D).StoreGateway = none ∧
      (ThanosSpec.zero D).Rule = none ∧
      (ThanosSpec.zero D).Query = none ∧
      (ThanosSpec.zero D).ObjectStore = "" ∧
      decodeQuery D (.obj []) = some (Query.zero D) ∧
      decodeStoreGateway D (.obj []) = some StoreGateway.zero ∧
      decodeRule D (.obj []) = some Rule.zero := by
  refine ⟨?_, ?_, ?_, ?_, ?_, ?_, ?_, ?_, ?_, ?_, ?_, rfl, rfl, rfl, rfl, rfl, rfl, rfl, rfl,
    rfl, rfl, rfl⟩
  · exact omissionSafe_of_dropField _ _ _ _ rfl
      (fun o f r h => decodeThanosSpecMembers_dropField D _ r o f h)
  · exact omissionSafe_of_dropField _ _ _ _ rfl
      (fun o f r h => decodeQueryMembers_dropField D _ r o f h)
  · exact omissionSafe_of_dropField _ _ _ _ rfl
      (fun o f r h => decodeStoreGatewayMembers_dropField D _ r o f h)
  · exact omissionSafe_of_dropField _ _ _ _ rfl
      (fun o f r h => decodeRuleMembers_dropField D _ r o f h)
  · exact omissionSafe_of_dropField _ _ _ _ rfl
      (fun o f r h => decodeRemoteMembers_dropField D _ r o f h)
  · exact omissionSafe_of_dropField _ _ _ _ rfl
      (fun o f r h => decodeLocalMembers_dropField D _ r o f h)
  · exact omissionSafe_of_dropField _ _ _ _ rfl
      (fun o f r h => decodeTLSMembers_dropField D _ r o f h)
  · exact omissionSafe_of_dropField _ _ _ _ rfl
      (fun o f r h => decodeThanosDiscoveryMembers_dropField D _ r o f h)
  · exact omissionSafe_of_dropField _ _ _ _ rfl
      (fun o f r h => decodeTimeRangeMembers_dropField _ r o f h)
  · exact omissionSafe_of_dropField _ _ _ _ rfl
      (fun o f r h => decodeImageSpecMembers_dropField D _ r o f h)
  · intro o s h
    have hd : ∀ f, membersOf ThanosSpec.jsonKeys f o = [] →
        ThanosSpec.omitField D f (ThanosSpec.zero D) s = s := by
      intro f hf
      have h1 := decodeThanosSpecMembers_dropField D _ s o f h
      rw [dropField_eq_self _ _ _ hf] at h1
      exact Option.some.inj (h1.symm.trans h)
    refine ⟨?_, ?_, ?_, ?_, ?_, ?_, ?_⟩ <;> intro hk
    · exact (congrArg (fun r => r.Remote) (hd _ hk)).symm
    · exact (congrArg (fun r => r.ThanosDiscovery) (hd _ hk)).symm
    · exact (congrArg (fun r => r.Local) (hd _ hk)).symm
    · exact (congrArg (fun r => r.StoreGateway) (hd _ hk)).symm
    · exact (congrArg (fun r => r.Rule) (hd _ hk)).symm
    · exact (congrArg (fun r => r.ObjectStore) (hd _ hk)).symm
    · exact (congrArg (fun r => r.Query) (hd _ hk)).symm

/-- The omission conditions of C5 are met by a document: the object `variantKeysDocument` decodes,
also through a key that differs by case, and it decodes to the same spec with Query nil when its
members for `query` are taken out. -/
theorem decode_omitted_fields_witness :
    decodeThanosSpec Deps.sample (.obj variantKeysDocument) = some variantKeysSpec ∧
      decodeThanosSpec Deps.sample
          (.obj (dropField ThanosSpec.jsonKeys "query" variantKeysDocument)) =
        some (ThanosSpec.omitField Deps.sample "query" (ThanosSpec.zero Deps.sample)
          variantKeysSpec) ∧
      (ThanosSpec.omitField Deps.sample "query" (ThanosSpec.zero Deps.sample)
          variantKeysSpec).Query = none :=
  ⟨rfl, (decode_omitted_fields Deps.sample).1.2.1 variantKeysDocument "query" variantKeysSpec rfl,
    rfl⟩

/-- C6, as stated, fails: the TLS value with the certificate "tls-secret" carries a managed
setting and a certificate at once, so it is not exactly one of the two. -/
theorem certificateTLS_carries_both :
    certificateTLS.carriesManaged ∧ certificateTLS.carriesCertificate ∧
      ¬ (¬ (certificateTLS.carriesManaged ∧ certificateTLS.carriesCertificate) ∧
        ¬ (¬ certificateTLS.carriesManaged ∧ ¬ certificateTLS.carriesCertificate)) := by
  have h1 : certificateTLS.carriesManaged := by
    show "managedTLS" ∈ ["managedTLS", "certificate"]
    decide
  have h2 : certificateTLS.carriesCertificate := by
    show "certificate" ∈ ["managedTLS", "certificate"]
    decide
  exact ⟨h1, h2, fun h => h.1 ⟨h1, h2⟩⟩

/-- C6, amended: TLS is a record of both fields: every TLS value holds a managed setting, which
is the one value of the empty record ManagedTLS, together with a certificate; the value is
determined by its certificate, and its encoding has both keys `managedTLS` and `certificate`. -/
theorem tls_carries_both (D : Deps) (t : TLS D) :
    t.carriesManaged ∧ t.carriesCertificate ∧
      t.Managed = ManagedTLS.mk ∧
      t = { Managed := ManagedTLS.mk, Certificate := t.Certificate } ∧
      (encodeTLS t).keys = ["managedTLS", "certificate"] := by
  have hk : (encodeTLS t).keys = ["managedTLS", "certificate"] := tls_keys t
  refine ⟨?_, ?_, rfl, rfl, hk⟩
  · show "managedTLS" ∈ (encodeTLS t).keys
    rw [hk]
    decide
  · show "certificate" ∈ (encodeTLS t).keys
    rw [hk]
    decide

/-- C7: each of the six sub-specs of ThanosSpec is a pointer tagged `omitempty`: its key is a key
of the encoding of a spec exactly when the pointer is not nil, and the zero ThanosSpec encodes
to the empty object. -/
theorem thanosSpec_key_iff_present (D : Deps) (s : ThanosSpec D) :
    ("remote" ∈ (encodeThanosSpec s).keys ↔ s.Remote ≠ none) ∧
      ("thanosDiscovery" ∈ (encodeThanosSpec s).keys ↔ s.ThanosDiscovery ≠ none) ∧
      ("local" ∈ (encodeThanosSpec s).keys ↔ s.Local ≠ none) ∧
      ("storeGateway" ∈ (encodeThanosSpec s).keys ↔ s.StoreGateway ≠ none) ∧
      ("rule" ∈ (encodeThanosSpec s).keys ↔ s.Rule ≠ none) ∧
      ("query" ∈ (encodeThanosSpec s).keys ↔ s.Query ≠ none) ∧
      encodeThanosSpec (ThanosSpec.zero D) = Json.obj [] := by
  obtain ⟨r, t, l, g, ru, os, q⟩ := s
  refine ⟨?_, ?_, ?_, ?_, ?_, ?_, rfl⟩
  · cases r <;>
      simp [encodeThanosSpec, Json.keys, ThanosSpec.fields, ptrField, stringField,
        mem_keysOf_jsonField_append, mem_keysOf_jsonField]
  · cases t <;>
      simp [encodeThanosSpec, Json.keys, ThanosSpec.fields, ptrField, stringField,
        mem_keysOf_jsonField_append, mem_keysOf_jsonField]
  · cases l <;>
      simp [encodeThanosSpec, Json.keys, ThanosSpec.fields, ptrField, stringField,
        mem_keysOf_jsonField_append, mem_keysOf_jsonField]
  · cases g <;>
      simp [encodeThanosSpec, Json.keys, ThanosSpec.fields, ptrField, stringField,
        mem_keysOf_jsonField_append, mem_keysOf_jsonField]
  · cases ru <;>
      simp [encodeThanosSpec, Json.keys, ThanosSpec.fields, ptrField, stringField,
        mem_keysOf_jsonField_append, mem_keysOf_jsonField]
  · cases q <;>
      simp [encodeThanosSpec, Json.keys, ThanosSpec.fields, ptrField, stringField,
        mem_keysOf_jsonField_append, mem_keysOf_jsonField]

/-- C8: `init` appends the two type names Thanos and ThanosList, in that order, to the registry
it is given and changes nothing else: the result is the registry before with exactly these two
entries after it.  `init` is a total function, so it cannot fail. -/
theorem init_registers (reg : Registry) :
    init reg = reg ++ ["Thanos", "ThanosList"] ∧
      (init reg).length = reg.length + 2 ∧
      (init reg).take reg.length = reg ∧
      (init reg).drop reg.length = [thanosTypeName, thanosListTypeName] := by
  simp [init, Register, thanosTypeName, thanosListTypeName]

/-- C9: in the default Query value every field other than the image, the log level and the two
listen addresses holds its zero value. -/
theorem defaultQuery_other_fields_zero (D : Deps) :
    (DefaultQuery D).LogFormat = "" ∧
      (DefaultQuery D).HttpGracePeriod = "" ∧
      (DefaultQuery D).GRPCGracePeriod = "" ∧
      (DefaultQuery D).WebRoutePrefix = "" ∧
      (DefaultQuery D).WebExternalPrefix = "" ∧
      (DefaultQuery D).WebPrefixHeader = "" ∧
      (DefaultQuery D).QueryTimeout = D.zeroDuration ∧
      (DefaultQuery D).StoreSDDNSInterval = D.zeroDuration ∧
      (DefaultQuery D).StoreUnhealthyTimeout = D.zeroDuration ∧
      (DefaultQuery D).QueryDefaultEvaluationInterval = D.zeroDuration ∧
      (DefaultQuery D).StoreResponseTimeout = D.zeroDuration ∧
      (DefaultQuery D).QueryMaxConcurrent = GoInt.zero ∧
      (DefaultQuery D).QueryMaxConcurrent.val = 0 ∧
      (DefaultQuery D).QueryReplicaLabels = none ∧
      (DefaultQuery D).SelectorLabels = none ∧
      (DefaultQuery D).Stores = none ∧
      (DefaultQuery D).QueryAutoDownsampling = false ∧
      (DefaultQuery D).QueryPartialResponse = false :=
  ⟨rfl, rfl, rfl, rfl, rfl, rfl, rfl, rfl, rfl, rfl, rfl, rfl, rfl, rfl, rfl, rfl, rfl, rfl⟩

/-- C10: within each record type of the file the JSON keys of the declared fields are pairwise
distinct. -/
theorem jsonKeys_nodup :
    ThanosSpec.jsonKeys.Nodup ∧ Query.jsonKeys.Nodup ∧ TLS.jsonKeys.Nodup ∧
      Remote.jsonKeys.Nodup ∧ Local.jsonKeys.Nodup ∧ ThanosDiscovery.jsonKeys.Nodup ∧
      TimeRange.jsonKeys.Nodup ∧ StoreGateway.jsonKeys.Nodup ∧ Rule.jsonKeys.Nodup ∧
      Thanos.jsonKeys.Nodup ∧ ThanosList.jsonKeys.Nodup := by
  refine ⟨?_, ?_, ?_, ?_, ?_, ?_, ?_, ?_, ?_, ?_, ?_⟩ <;> decide

end ThanosTypes
